import Mathlib

/-!
# Garden: mesh-set index control, radius spawning and quaternion rotation helpers

A shallow embedding of `Source/Garden/Private/RadiusSpawner.{h,cpp}` and
`Source/Garden/MyBlueprintFunctionLibrary.{h,cpp}`.

* `int32` values are `Int`; every `int32` arithmetic operation of the source is
  passed through `wrapInt32` (two's complement wrap-around), and `%` is the
  truncating `Int.tmod` of C++.
* `TArray<T>` is `List T`; `Num()` is the length as an `Int`.  A `TArray` never
  holds more than `INT32_MAX` elements, which theorems assume where they need it.
* Pointers are `Option`; `none` is the null pointer.
* Engine services the code calls (random numbers, line traces, `NewObject`,
  trigonometry) are parameters of the embedding.
-/

namespace Garden

/-! ## Machine integers and engine math -/

/-- Two's complement wrap-around of an exact integer into the `int32` range. -/
def wrapInt32 (x : Int) : Int := (x + 2147483648) % 4294967296 - 2147483648

/-- The largest `int32`. -/
def INT32_MAX : Int := 2147483647

/-- `FMath::Clamp(X, Min, Max)` of the engine: `(X < Min) ? Min : (X < Max) ? X : Max`. -/
def Clamp (X Min Max : Int) : Int :=
  if X < Min then Min else if X < Max then X else Max

/-- `TArray::Num()`. -/
def Num {α : Type} (A : List α) : Int := (A.length : Int)

/-- `TArray::operator[]` with its range check: `none` when the index is out of bounds. -/
def At {α : Type} (A : List α) (Index : Int) : Option α :=
  if 0 ≤ Index then A.get? Index.toNat else none

/-! ## Data model of `RadiusSpawner.h` -/

/-- A static mesh asset, identified by a number. -/
structure UStaticMesh where
  Id : Nat
deriving DecidableEq, Repr

/-- `FMeshSet`: the wrapper around the inner array of (possibly null) meshes. -/
structure FMeshSet where
  Meshes : List (Option UStaticMesh)
deriving DecidableEq, Repr

/-- The lines `UE_LOG` writes, one constructor per message of `RadiusSpawner.cpp`. -/
inductive LogLine where
  | SetIndexEmpty
  | SetIndexClamped (NewIndex CurrentMeshSetIndex : Int)
  | SetIndexChanged (CurrentMeshSetIndex : Int)
  | CycleEmpty
  | Cycled (CurrentMeshSetIndex : Int)
  | SpawnNoMeshSets
  | SpawnActiveSetEmpty (SafeIndex : Int)
  | SpawnNullMesh (RandomMeshIndex : Int)
  | SpawnedCount (SpawnCount : Int)
deriving DecidableEq, Repr

/-- `FVector` with ideal real components. -/
structure FVector where
  X : ℝ
  Y : ℝ
  Z : ℝ

/-- `FRotator` with ideal real components. -/
structure FRotator where
  Pitch : ℝ
  Yaw : ℝ
  Roll : ℝ

/-- `FVector::operator+`. -/
def FVector.add (A B : FVector) : FVector := ⟨A.X + B.X, A.Y + B.Y, A.Z + B.Z⟩

/-- `FVector::operator-`. -/
def FVector.sub (A B : FVector) : FVector := ⟨A.X - B.X, A.Y - B.Y, A.Z - B.Z⟩

/-- `FVector::operator*(Scale)`. -/
def FVector.scale (A : FVector) (k : ℝ) : FVector := ⟨A.X * k, A.Y * k, A.Z * k⟩

/-- `FVector::ZeroVector`. -/
def FVector.ZeroVector : FVector := ⟨0, 0, 0⟩

/-- `FRotator::ZeroRotator`. -/
def FRotator.ZeroRotator : FRotator := ⟨0, 0, 0⟩

/-- `ECollisionEnabled`. -/
inductive ECollisionEnabled where
  | NoCollision
  | QueryOnly
  | PhysicsOnly
  | QueryAndPhysics
deriving DecidableEq, Repr

/-- A `UStaticMeshComponent` object: its identity and the properties the spawner sets. -/
structure UStaticMeshComponent where
  Object : Nat
  Registered : Bool
  StaticMesh : Option UStaticMesh
  WorldLocation : FVector
  WorldRotation : FRotator
  RelativeScale3D : FVector
  SimulatePhysics : Bool
  CollisionEnabled : ECollisionEnabled

/-- The fields of `ARadiusSpawner` that the modelled methods read or write. -/
structure ARadiusSpawner where
  SpawningRadius : ℝ
  MeshSets : List FMeshSet
  CurrentMeshSetIndex : Int
  SpawnCount : Int
  MinScale : ℝ
  MaxScale : ℝ
  SpawnedMeshes : List (Option UStaticMeshComponent)

/-- The engine calls with an effect outside the actor, in the order they are made. -/
inductive Effect where
  | Log (Line : LogLine)
  | DestroyComponent (Mesh : UStaticMeshComponent)
  | NewObject (Result : Option UStaticMeshComponent)

/-- What stops a call: a failed `TArray` range check or a null `GetWorld()` dereference. -/
inductive Fault where
  | IndexOutOfBounds
  | NullWorld
deriving DecidableEq, Repr

/-! ## Mesh control methods -/

/-- `ARadiusSpawner::SetMeshSetIndex`. -/
def SetMeshSetIndex (S : ARadiusSpawner) (NewIndex : Int) : ARadiusSpawner × List Effect :=
  if Num S.MeshSets = 0 then
    ({ S with CurrentMeshSetIndex := 0 }, [.Log .SetIndexEmpty])
  else
    let S1 := { S with
      CurrentMeshSetIndex := Clamp NewIndex 0 (wrapInt32 (Num S.MeshSets - 1)) }
    if S1.CurrentMeshSetIndex ≠ NewIndex then
      (S1, [.Log (.SetIndexClamped NewIndex S1.CurrentMeshSetIndex)])
    else
      (S1, [.Log (.SetIndexChanged S1.CurrentMeshSetIndex)])

/-- `ARadiusSpawner::CycleMeshSetIndex`. -/
def CycleMeshSetIndex (S : ARadiusSpawner) : ARadiusSpawner × List Effect :=
  if Num S.MeshSets = 0 then
    ({ S with CurrentMeshSetIndex := 0 }, [.Log .CycleEmpty])
  else
    let S1 := { S with
      CurrentMeshSetIndex := Int.tmod (wrapInt32 (S.CurrentMeshSetIndex + 1)) (Num S.MeshSets) }
    (S1, [.Log (.Cycled S1.CurrentMeshSetIndex)])

/-! ## The engine services `SpawnMeshesInRadius` calls -/

/-- `FMath::Cos`, `FMath::Sin`, `FMath::DegreesToRadians` and `FVector::Rotation`. -/
structure FMathLib where
  Cos : ℝ → ℝ
  Sin : ℝ → ℝ
  DegreesToRadians : ℝ → ℝ
  Rotation : FVector → FRotator

/-- `FQuat` with ideal real components. -/
structure FQuat where
  X : ℝ
  Y : ℝ
  Z : ℝ
  W : ℝ

/-- `FQuat::Identity`. -/
def FQuat.Identity : FQuat := ⟨0, 0, 0, 1⟩

/-- `USceneComponent`: its world rotation, `GetComponentQuat()`. -/
structure USceneComponent where
  ComponentQuat : FQuat

/-- `AActor`: its tags and its (possibly null) root component. -/
structure AActor where
  Tags : List String
  RootComponent : Option USceneComponent

/-- `AActor::ActorHasTag`. -/
def AActor.ActorHasTag (A : AActor) (Tag : String) : Bool := A.Tags.contains Tag

/-- `const FName GroundTag("Ground")`. -/
def GroundTag : String := "Ground"

/-- `FHitResult`: the hit actor (possibly null) and the hit location. -/
structure FHitResult where
  Actor : Option AActor
  Location : FVector

/-- `APlayerCameraManager`: camera location and `GetCameraRotation().Vector()`. -/
structure APlayerCameraManager where
  CameraLocation : FVector
  CameraForwardVector : FVector

/-- `APlayerController` with its (possibly null) camera manager. -/
structure APlayerController where
  PlayerCameraManager : Option APlayerCameraManager

/-- `UWorld`: `LineTraceSingleByChannel` from a start to an end point on the visibility
channel, ignoring the spawner; `none` is a `false` return. -/
structure UWorld where
  LineTraceSingleByChannel : FVector → FVector → Option FHitResult

/-- What the engine answers during loop iteration `i`: the random numbers drawn, the world
as it is then, and the object `NewObject` returns. -/
structure IterEnv where
  RandRangeInt : Int → Int → Int
  RandRangeFloat : ℝ → ℝ → ℝ
  FRand : ℝ
  FRandRange : ℝ → ℝ → ℝ
  LineTraceSingleByChannel : FVector → FVector → Option FHitResult
  NewObject : Option UStaticMeshComponent

/-- What the engine answers during one `SpawnMeshesInRadius` call. -/
structure SpawnEnv where
  ActorLocation : FVector
  PlayerController : Option APlayerController
  World : Option UWorld
  Iter : Nat → IterEnv

/-- `ARadiusSpawner::CalculateGroundCenterLocation`. -/
def CalculateGroundCenterLocation (E : SpawnEnv) : FVector :=
  let CenterResult := E.ActorLocation
  match E.PlayerController with
  | none => CenterResult
  | some PlayerController =>
    match PlayerController.PlayerCameraManager with
    | none => CenterResult
    | some Camera =>
      match E.World with
      | none => CenterResult
      | some World =>
        let CameraLocation := Camera.CameraLocation
        let CameraForwardVector := Camera.CameraForwardVector
        let CenterTraceDistance : ℝ := 10000
        let TraceStart := CameraLocation
        let TraceEnd := CameraLocation.add (CameraForwardVector.scale CenterTraceDistance)
        match World.LineTraceSingleByChannel TraceStart TraceEnd with
        | none => CenterResult
        | some CenterHitResult =>
          match CenterHitResult.Actor with
          | none => CenterResult
          | some HitActor =>
            if HitActor.ActorHasTag GroundTag then CenterHitResult.Location else CenterResult

/-- The destroy loop of step 1: `DestroyComponent` on every non-null stored pointer. -/
def DestroyExisting : List (Option UStaticMeshComponent) → List Effect
  | [] => []
  | none :: Rest => DestroyExisting Rest
  | some Mesh :: Rest => .DestroyComponent Mesh :: DestroyExisting Rest

/-- The random horizontal offset `(RandX, RandY)` of one iteration. -/
def RandomOffset (M : FMathLib) (SpawningRadius : ℝ) (I : IterEnv) : ℝ × ℝ :=
  let RandomAngle := I.RandRangeFloat 0 360
  let RandomDistance := I.FRand * SpawningRadius
  let AngleInRadians := M.DegreesToRadians RandomAngle
  let RandX := M.Cos AngleInRadians * RandomDistance
  let RandY := M.Sin AngleInRadians * RandomDistance
  (RandX, RandY)

/-- Step 3 of the loop body on a non-null `NewMeshComp`: `RegisterComponent`,
`SetStaticMesh`, `SetWorldLocationAndRotation`, `SetRelativeScale3D`,
`SetSimulatePhysics(false)` and `SetCollisionEnabled(QueryAndPhysics)`. -/
def ConfigureComponent (NewMeshComp : UStaticMeshComponent) (SelectedMesh : UStaticMesh)
    (SpawnLocation : FVector) (SpawnRotation : FRotator) (SpawnScale : FVector) :
    UStaticMeshComponent :=
  { NewMeshComp with
    Registered := true
    StaticMesh := some SelectedMesh
    WorldLocation := SpawnLocation
    WorldRotation := SpawnRotation
    RelativeScale3D := SpawnScale
    SimulatePhysics := false
    CollisionEnabled := .QueryAndPhysics }

/-- The body of the spawn loop for one iteration, from the stored components and the
effects so far to those after the iteration. -/
def SpawnIteration (M : FMathLib) (E : SpawnEnv) (S : ARadiusSpawner)
    (ActiveMeshSet : List (Option UStaticMesh)) (GroundCenterLocation CameraLocation : FVector)
    (I : IterEnv) (SpawnedMeshes : List (Option UStaticMeshComponent)) (Trace : List Effect) :
    Except Fault (List (Option UStaticMeshComponent) × List Effect) :=
  let RandomMeshIndex := I.RandRangeInt 0 (wrapInt32 (Num ActiveMeshSet - 1))
  match At ActiveMeshSet RandomMeshIndex with
  | none => .error .IndexOutOfBounds
  | some none => .ok (SpawnedMeshes, Trace ++ [.Log (.SpawnNullMesh RandomMeshIndex)])
  | some (some SelectedMesh) =>
    let RandX := (RandomOffset M S.SpawningRadius I).1
    let RandY := (RandomOffset M S.SpawningRadius I).2
    let BaseTraceLocation : FVector :=
      ⟨GroundCenterLocation.X + RandX, GroundCenterLocation.Y + RandY,
        GroundCenterLocation.Z + 1000⟩
    let TraceDownOffset : ℝ := 200
    let TraceStart := BaseTraceLocation
    let TraceEnd := BaseTraceLocation.sub ⟨0, 0, 1000 + TraceDownOffset⟩
    match E.World with
    | none => .error .NullWorld
    | some _ =>
      match I.LineTraceSingleByChannel TraceStart TraceEnd with
      | none => .ok (SpawnedMeshes, Trace)
      | some HitResult =>
        match HitResult.Actor with
        | none => .ok (SpawnedMeshes, Trace)
        | some HitActor =>
          if HitActor.ActorHasTag GroundTag then
            let FinalZ := HitResult.Location.Z + 2
            let SpawnLocation : FVector :=
              ⟨GroundCenterLocation.X + RandX, GroundCenterLocation.Y + RandY, FinalZ⟩
            let SpawnRotation : FRotator :=
              match E.PlayerController with
              | none => FRotator.ZeroRotator
              | some _ =>
                let LookAtVector := CameraLocation.sub SpawnLocation
                let LookAtVector : FVector := { LookAtVector with Z := 0 }
                let LookAtRotator := M.Rotation LookAtVector
                ⟨0, LookAtRotator.Yaw, 0⟩
            let UniformScale := I.FRandRange S.MinScale S.MaxScale
            let SpawnScale : FVector := ⟨UniformScale, UniformScale, UniformScale⟩
            match I.NewObject with
            | none => .ok (SpawnedMeshes, Trace ++ [.NewObject none])
            | some NewMeshComp =>
              let Comp :=
                ConfigureComponent NewMeshComp SelectedMesh SpawnLocation SpawnRotation SpawnScale
              .ok (SpawnedMeshes ++ [some Comp], Trace ++ [.NewObject (some NewMeshComp)])
          else .ok (SpawnedMeshes, Trace)

/-- The spawn loop `for (int32 i = 0; i < SpawnCount; ++i)`, from iteration `i` on with
`Remaining` iterations left. -/
def SpawnLoop (M : FMathLib) (E : SpawnEnv) (S : ARadiusSpawner)
    (ActiveMeshSet : List (Option UStaticMesh)) (GroundCenterLocation CameraLocation : FVector) :
    Nat → Nat → List (Option UStaticMeshComponent) → List Effect →
      Except Fault (List (Option UStaticMeshComponent) × List Effect)
  | _, 0, SpawnedMeshes, Trace => .ok (SpawnedMeshes, Trace)
  | i, Remaining + 1, SpawnedMeshes, Trace =>
    match SpawnIteration M E S ActiveMeshSet GroundCenterLocation CameraLocation (E.Iter i)
        SpawnedMeshes Trace with
    | .error F => .error F
    | .ok (SpawnedMeshes1, Trace1) =>
      SpawnLoop M E S ActiveMeshSet GroundCenterLocation CameraLocation (i + 1) Remaining
        SpawnedMeshes1 Trace1

/-- The `SafeIndex` that `SpawnMeshesInRadius` computes. -/
def SafeIndex (S : ARadiusSpawner) : Int :=
  Clamp S.CurrentMeshSetIndex 0 (wrapInt32 (Num S.MeshSets - 1))

/-- The `CameraLocation` local of `SpawnMeshesInRadius`: the camera location when the
player controller and its camera manager exist, the zero vector otherwise. -/
def SpawnCameraLocation (E : SpawnEnv) : FVector :=
  match E.PlayerController with
  | none => FVector.ZeroVector
  | some PlayerController =>
    match PlayerController.PlayerCameraManager with
    | none => FVector.ZeroVector
    | some Camera => Camera.CameraLocation

/-- `ARadiusSpawner::SpawnMeshesInRadius` after step 1: the mesh set guards, the spawn
center and camera, the spawn loop and the final log line, on the spawner and the effects
that step 1 left. -/
def SpawnAfterDestroy (M : FMathLib) (E : SpawnEnv) (S1 : ARadiusSpawner)
    (Trace1 : List Effect) : Except Fault (ARadiusSpawner × List Effect) :=
  if Num S1.MeshSets = 0 then
    .ok (S1, Trace1 ++ [.Log .SpawnNoMeshSets])
  else
    let SafeIndex : Int := SafeIndex S1
    match At S1.MeshSets SafeIndex with
    | none => .error .IndexOutOfBounds
    | some ActiveSet =>
      let ActiveMeshSet := ActiveSet.Meshes
      if Num ActiveMeshSet = 0 then
        .ok (S1, Trace1 ++ [.Log (.SpawnActiveSetEmpty SafeIndex)])
      else
        let GroundCenterLocation := CalculateGroundCenterLocation E
        let CameraLocation : FVector := SpawnCameraLocation E
        match SpawnLoop M E S1 ActiveMeshSet GroundCenterLocation CameraLocation 0
            S1.SpawnCount.toNat S1.SpawnedMeshes Trace1 with
        | .error F => .error F
        | .ok (SpawnedMeshes2, Trace2) =>
          .ok ({ S1 with SpawnedMeshes := SpawnedMeshes2 },
            Trace2 ++ [.Log (.SpawnedCount S1.SpawnCount)])

/-- `ARadiusSpawner::SpawnMeshesInRadius`: step 1 destroys and forgets the stored components
when `bDestroyExisting`, then the rest of the function runs. -/
def SpawnMeshesInRadius (M : FMathLib) (E : SpawnEnv) (S : ARadiusSpawner)
    (bDestroyExisting : Bool) : Except Fault (ARadiusSpawner × List Effect) :=
  if bDestroyExisting then
    SpawnAfterDestroy M E { S with SpawnedMeshes := [] } (DestroyExisting S.SpawnedMeshes)
  else
    SpawnAfterDestroy M E S []

/-! ## `MyBlueprintFunctionLibrary.cpp` -/

/-- `ETeleportType`. -/
inductive ETeleportType where
  | None
  | TeleportPhysics
  | ResetPhysics
deriving DecidableEq, Repr

/-- The arguments of one `USceneComponent::SetWorldRotation` call; `OutSweepHitResult` tells
whether a non-null out-parameter was passed. -/
structure SetWorldRotationCall where
  NewRotation : FQuat
  bSweep : Bool
  OutSweepHitResult : Bool
  Teleport : ETeleportType

/-- The file-static `MirrorPitch` of `MyBlueprintFunctionLibrary.cpp`. -/
def MirrorPitch (Q : FQuat) : FQuat := ⟨-Q.X, Q.Y, Q.Z, -Q.W⟩

/-- `UMyBlueprintFunctionLibrary::MirrorPitch`. -/
def UMyBlueprintFunctionLibrary.MirrorPitch (Q : FQuat) : FQuat := ⟨Q.X, -Q.Y, Q.Z, -Q.W⟩

/-- `UMyBlueprintFunctionLibrary::SetActorWorldRotationQuat`: the actor afterwards and the
`SetWorldRotation` calls made.  `SetWorldRotation` is the engine's effect of such a call on
the root component.  Inside the member function the unqualified name `MirrorPitch` is the
class member, which hides the file-static function. -/
def UMyBlueprintFunctionLibrary.SetActorWorldRotationQuat
    (SetWorldRotation : USceneComponent → SetWorldRotationCall → USceneComponent)
    (Actor : Option AActor) (Quaternion : FQuat) (bInvertPitch bSweep bTeleport : Bool) :
    Option AActor × List SetWorldRotationCall :=
  match Actor with
  | none => (Actor, [])
  | some A =>
    match A.RootComponent with
    | none => (Actor, [])
    | some Root =>
      let FinalQuat : FQuat :=
        if bInvertPitch then UMyBlueprintFunctionLibrary.MirrorPitch Quaternion else Quaternion
      let Call : SetWorldRotationCall :=
        ⟨FinalQuat, bSweep, if bSweep then true else false,
          if bTeleport then ETeleportType.TeleportPhysics else ETeleportType.None⟩
      (some { A with RootComponent := some (SetWorldRotation Root Call) }, [Call])

/-- `AActor::GetActorQuat` of the engine: the root component's quaternion, identity without
a root component. -/
def AActor.GetActorQuat (A : AActor) : FQuat :=
  match A.RootComponent with
  | none => FQuat.Identity
  | some Root => Root.ComponentQuat

/-- `UMyBlueprintFunctionLibrary::GetActorWorldRotationQuat`. -/
def UMyBlueprintFunctionLibrary.GetActorWorldRotationQuat (Actor : Option AActor) : FQuat :=
  match Actor with
  | none => FQuat.Identity
  | some A =>
    match A.RootComponent with
    | none => FQuat.Identity
    | some _ => A.GetActorQuat

/-! ## Sequences of mesh control calls -/

/-- One Blueprint call that changes the active mesh set index. -/
inductive IndexCall where
  | Set (NewIndex : Int)
  | Cycle
deriving DecidableEq, Repr

/-- The spawner after one index call. -/
def IndexCall.apply (S : ARadiusSpawner) : IndexCall → ARadiusSpawner
  | .Set NewIndex => (SetMeshSetIndex S NewIndex).1
  | .Cycle => (CycleMeshSetIndex S).1

/-- The spawner after a sequence of index calls, first call first. -/
def RunIndexCalls (S : ARadiusSpawner) (Calls : List IndexCall) : ARadiusSpawner :=
  Calls.foldl IndexCall.apply S

/-- A freshly constructed spawner with the header's default member values and the given
mesh sets. -/
def DefaultSpawner (MeshSets : List FMeshSet) : ARadiusSpawner :=
  { SpawningRadius := 500
    MeshSets := MeshSets
    CurrentMeshSetIndex := 0
    SpawnCount := 10
    MinScale := 0.8
    MaxScale := 1.2
    SpawnedMeshes := [] }

/-- The index invariant: the active index is 0 for an empty `MeshSets` and a valid index
otherwise. -/
def IndexValid (S : ARadiusSpawner) : Prop :=
  0 ≤ S.CurrentMeshSetIndex ∧ S.CurrentMeshSetIndex ≤ max (Num S.MeshSets - 1) 0

/-- A spawner for examples: the header's defaults with two mesh sets of one mesh each. -/
def TwoSets : ARadiusSpawner :=
  DefaultSpawner [⟨[some ⟨1⟩]⟩, ⟨[some ⟨2⟩]⟩]

/-- The engine contract of the integer `FMath::RandRange(Min, Max)`: a value in
`[Min, Max]`. -/
def RandRangeContract (I : IterEnv) : Prop :=
  ∀ Min Max : Int, Min ≤ Max → Min ≤ I.RandRangeInt Min Max ∧ I.RandRangeInt Min Max ≤ Max

/-- The stored pointer `x` is the object `NewObject` returned in the iteration answered by
`I`, configured by that iteration and placed at the ground center plus the iteration's random
horizontal offset. -/
def SpawnedBy (M : FMathLib) (S : ARadiusSpawner) (GroundCenterLocation : FVector)
    (I : IterEnv) (x : Option UStaticMeshComponent) : Prop :=
  ∃ (NewMeshComp : UStaticMeshComponent) (Mesh : UStaticMesh) (FinalZ : ℝ)
    (Rot : FRotator) (Scale : FVector),
    I.NewObject = some NewMeshComp ∧
    x = some (ConfigureComponent NewMeshComp Mesh
      ⟨GroundCenterLocation.X + (RandomOffset M S.SpawningRadius I).1,
        GroundCenterLocation.Y + (RandomOffset M S.SpawningRadius I).2, FinalZ⟩ Rot Scale)

/-- `TraceStart` of an iteration with random offset `Off`: `BaseTraceLocation`, 1000 above
the ground center plus the offset. -/
def IterTraceStart (GroundCenterLocation : FVector) (Off : ℝ × ℝ) : FVector :=
  ⟨GroundCenterLocation.X + Off.1, GroundCenterLocation.Y + Off.2,
    GroundCenterLocation.Z + 1000⟩

/-- `TraceEnd` of an iteration with random offset `Off`: `1000 + TraceDownOffset` below
`TraceStart`. -/
def IterTraceEnd (GroundCenterLocation : FVector) (Off : ℝ × ℝ) : FVector :=
  (IterTraceStart GroundCenterLocation Off).sub ⟨0, 0, 1000 + 200⟩

/-- The iteration answered by `I` selects the non-null mesh `Mesh` from the active set, its
downward line trace returns `Hit` on an actor tagged `Ground`, and `NewObject` returns the
object `NewMeshComp`. -/
def GroundHit (M : FMathLib) (S : ARadiusSpawner) (ActiveMeshSet : List (Option UStaticMesh))
    (GroundCenterLocation : FVector) (I : IterEnv) (Mesh : UStaticMesh) (Hit : FHitResult)
    (NewMeshComp : UStaticMeshComponent) : Prop :=
  At ActiveMeshSet (I.RandRangeInt 0 (wrapInt32 (Num ActiveMeshSet - 1))) = some (some Mesh) ∧
  I.LineTraceSingleByChannel
      (IterTraceStart GroundCenterLocation (RandomOffset M S.SpawningRadius I))
      (IterTraceEnd GroundCenterLocation (RandomOffset M S.SpawningRadius I)) = some Hit ∧
  (∃ HitActor, Hit.Actor = some HitActor ∧ HitActor.ActorHasTag GroundTag = true) ∧
  I.NewObject = some NewMeshComp

/-- The component an iteration with such a ground hit stores: `NewMeshComp` with the
selected mesh, placed at the ground center plus the random offset and 2 above the hit,
turned to the camera about Z when there is a player controller, uniformly scaled. -/
def SpawnedComponent (M : FMathLib) (E : SpawnEnv) (S : ARadiusSpawner)
    (GroundCenterLocation CameraLocation : FVector) (I : IterEnv) (Mesh : UStaticMesh)
    (Hit : FHitResult) (NewMeshComp : UStaticMeshComponent) : UStaticMeshComponent :=
  ConfigureComponent NewMeshComp Mesh
    ⟨GroundCenterLocation.X + (RandomOffset M S.SpawningRadius I).1,
      GroundCenterLocation.Y + (RandomOffset M S.SpawningRadius I).2, Hit.Location.Z + 2⟩
    (match E.PlayerController with
      | none => FRotator.ZeroRotator
      | some _ =>
        ⟨0, (M.Rotation
          { CameraLocation.sub
              ⟨GroundCenterLocation.X + (RandomOffset M S.SpawningRadius I).1,
                GroundCenterLocation.Y + (RandomOffset M S.SpawningRadius I).2,
                Hit.Location.Z + 2⟩ with Z := 0 }).Yaw, 0⟩)
    ⟨I.FRandRange S.MinScale S.MaxScale, I.FRandRange S.MinScale S.MaxScale,
      I.FRandRange S.MinScale S.MaxScale⟩

/-- The effect is a `DestroyComponent` call. -/
def Effect.IsDestroy : Effect → Bool
  | .DestroyComponent _ => true
  | _ => false

/-- The effect is a `NewObject` call that returned an object. -/
def Effect.IsNewObject : Effect → Bool
  | .NewObject (some _) => true
  | _ => false

/-- The example spawner with its last mesh set active. -/
def LastOfTwo : ARadiusSpawner := { TwoSets with CurrentMeshSetIndex := 1 }

/-- Answers for examples in which nothing is hit: every random draw is the lower bound,
`FRand` is 0.5 and the trace misses. -/
def MissIter : IterEnv :=
  { RandRangeInt := fun Min _ => Min
    RandRangeFloat := fun Min _ => Min
    FRand := 0.5
    FRandRange := fun Min _ => Min
    LineTraceSingleByChannel := fun _ _ => none
    NewObject := none }

/-- A call for examples in which every downward trace misses. -/
def MissEnv : SpawnEnv :=
  { ActorLocation := FVector.ZeroVector
    PlayerController := none
    World := some ⟨fun _ _ => none⟩
    Iter := fun _ => MissIter }

/-- Answers for examples in which the trace hits an actor tagged `Ground` at the end point
of the trace and `NewObject` returns object number `i`. -/
def HitIter (i : Nat) : IterEnv :=
  { RandRangeInt := fun Min _ => Min
    RandRangeFloat := fun Min _ => Min
    FRand := 0.5
    FRandRange := fun Min _ => Min
    LineTraceSingleByChannel := fun _ End => some ⟨some ⟨["Ground"], none⟩, End⟩
    NewObject := some
      { Object := i
        Registered := false
        StaticMesh := none
        WorldLocation := FVector.ZeroVector
        WorldRotation := FRotator.ZeroRotator
        RelativeScale3D := ⟨1, 1, 1⟩
        SimulatePhysics := false
        CollisionEnabled := .NoCollision } }

/-- A call for examples in which every downward trace hits tagged ground. -/
def HitEnv : SpawnEnv :=
  { ActorLocation := FVector.ZeroVector
    PlayerController := none
    World := some ⟨fun _ _ => none⟩
    Iter := HitIter }

/-- An `FMathLib` for examples whose functions are constant. -/
def FlatMath : FMathLib :=
  { Cos := fun _ => 1
    Sin := fun _ => 0
    DegreesToRadians := fun _ => 0
    Rotation := fun _ => FRotator.ZeroRotator }

/-- The example spawner asked for a single mesh. -/
def OneShot : ARadiusSpawner := { TwoSets with SpawnCount := 1 }

/-- A stored component for examples: object number `i`, registered, at the origin. -/
def StoredComponent (i : Nat) : UStaticMeshComponent :=
  { Object := i
    Registered := true
    StaticMesh := some ⟨1⟩
    WorldLocation := FVector.ZeroVector
    WorldRotation := FRotator.ZeroRotator
    RelativeScale3D := ⟨1, 1, 1⟩
    SimulatePhysics := false
    CollisionEnabled := .QueryAndPhysics }

/-- The example spawner holding two stored components around a null pointer. -/
def Stocked : ARadiusSpawner :=
  { TwoSets with SpawnedMeshes := [some (StoredComponent 7), none, some (StoredComponent 9)] }

/-- An engine for examples: `SetWorldRotation` stores the new rotation in the component. -/
def StoreRotation (_Root : USceneComponent) (Call : SetWorldRotationCall) : USceneComponent :=
  ⟨Call.NewRotation⟩

/-- An actor for examples: no tags, a root component with the identity rotation. -/
def RootedActor : AActor := ⟨[], some ⟨FQuat.Identity⟩⟩

/-- The pure pitch rotation used in examples: the unit quaternion `(0, 0.6, 0, 0.8)`. -/
def PitchQuat : FQuat := ⟨0, 0.6, 0, 0.8⟩

/-! ## Basic facts -/

theorem wrapInt32_of_range {x : Int} (h1 : -2147483648 ≤ x) (h2 : x ≤ 2147483647) :
    wrapInt32 x = x := by
  unfold wrapInt32; omega

theorem Num_nonneg {α : Type} (A : List α) : 0 ≤ Num A := by
  unfold Num; omega

theorem Num_eq_zero_iff {α : Type} (A : List α) : Num A = 0 ↔ A.length = 0 := by
  unfold Num; omega

theorem Clamp_spec (X Max : Int) (h : 0 ≤ Max) :
    Clamp X 0 Max = (if X < 0 then 0 else if X > Max then Max else X) ∧
      0 ≤ Clamp X 0 Max ∧ Clamp X 0 Max ≤ Max := by
  unfold Clamp
  split_ifs <;> omega

theorem Clamp_of_range (X Max : Int) (h0 : 0 ≤ X) (h1 : X ≤ Max) : Clamp X 0 Max = X := by
  unfold Clamp
  split_ifs <;> omega

theorem SetMeshSetIndex_MeshSets (S : ARadiusSpawner) (k : Int) :
    (SetMeshSetIndex S k).1.MeshSets = S.MeshSets := by
  unfold SetMeshSetIndex
  dsimp only
  split_ifs <;> rfl

theorem CycleMeshSetIndex_MeshSets (S : ARadiusSpawner) :
    (CycleMeshSetIndex S).1.MeshSets = S.MeshSets := by
  unfold CycleMeshSetIndex
  split_ifs <;> rfl

theorem SetMeshSetIndex_index (S : ARadiusSpawner) (k : Int) :
    (SetMeshSetIndex S k).1.CurrentMeshSetIndex =
      if Num S.MeshSets = 0 then 0 else Clamp k 0 (wrapInt32 (Num S.MeshSets - 1)) := by
  unfold SetMeshSetIndex
  dsimp only
  split_ifs <;> rfl

theorem CycleMeshSetIndex_index (S : ARadiusSpawner) :
    (CycleMeshSetIndex S).1.CurrentMeshSetIndex =
      if Num S.MeshSets = 0 then 0
      else Int.tmod (wrapInt32 (S.CurrentMeshSetIndex + 1)) (Num S.MeshSets) := by
  unfold CycleMeshSetIndex
  split_ifs <;> rfl

/-- Cycling from a valid index: the next index, or 0 from the last one. -/
theorem CycleMeshSetIndex_valid (S : ARadiusSpawner)
    (hlen : Num S.MeshSets ≤ INT32_MAX) (h0 : 0 ≤ S.CurrentMeshSetIndex)
    (h1 : S.CurrentMeshSetIndex < Num S.MeshSets) :
    (CycleMeshSetIndex S).1.CurrentMeshSetIndex =
      (S.CurrentMeshSetIndex + 1) % Num S.MeshSets := by
  unfold INT32_MAX at hlen
  rw [CycleMeshSetIndex_index, if_neg (by omega), wrapInt32_of_range (by omega) (by omega),
    Int.tmod_eq_emod (by omega) (by omega)]

theorem At_of_range {α : Type} (A : List α) (i : Int) (h0 : 0 ≤ i) (h1 : i < Num A) :
    ∃ x, At A i = some x := by
  unfold Num at h1
  have hlt : i.toNat < A.length := by omega
  refine ⟨A.get ⟨i.toNat, hlt⟩, ?_⟩
  unfold At
  rw [if_pos h0]
  exact List.get?_eq_get hlt

theorem IndexValid_apply (S : ARadiusSpawner) (hlen : Num S.MeshSets ≤ INT32_MAX)
    (hS : IndexValid S) (C : IndexCall) : IndexValid (C.apply S) := by
  unfold INT32_MAX at hlen
  have hn := Num_nonneg S.MeshSets
  unfold IndexValid at hS ⊢
  cases C with
  | Set k =>
    simp only [IndexCall.apply, SetMeshSetIndex_MeshSets, SetMeshSetIndex_index]
    split_ifs with h0
    · omega
    · rw [wrapInt32_of_range (by omega) (by omega)]
      have := Clamp_spec k (Num S.MeshSets - 1) (by omega)
      omega
  | Cycle =>
    simp only [IndexCall.apply, CycleMeshSetIndex_MeshSets]
    by_cases h0 : Num S.MeshSets = 0
    · rw [CycleMeshSetIndex_index, if_pos h0]; omega
    · rw [CycleMeshSetIndex_valid S (by unfold INT32_MAX; omega) hS.1 (by omega)]
      have h1 := Int.emod_nonneg (S.CurrentMeshSetIndex + 1) h0
      have h2 := Int.emod_lt_of_pos (S.CurrentMeshSetIndex + 1) (show 0 < Num S.MeshSets by omega)
      omega

theorem IndexCall_apply_MeshSets (S : ARadiusSpawner) (C : IndexCall) :
    (C.apply S).MeshSets = S.MeshSets := by
  cases C with
  | Set k => exact SetMeshSetIndex_MeshSets S k
  | Cycle => exact CycleMeshSetIndex_MeshSets S

theorem RunIndexCalls_inv (Calls : List IndexCall) :
    ∀ S : ARadiusSpawner, Num S.MeshSets ≤ INT32_MAX → IndexValid S →
      (RunIndexCalls S Calls).MeshSets = S.MeshSets ∧ IndexValid (RunIndexCalls S Calls) := by
  induction Calls with
  | nil => intro S _ hS; exact ⟨rfl, hS⟩
  | cons C Rest ih =>
    intro S hlen hS
    have hM := IndexCall_apply_MeshSets S C
    have := ih (C.apply S) (by rw [hM]; exact hlen) (IndexValid_apply S hlen hS C)
    simp only [RunIndexCalls, List.foldl_cons] at this ⊢
    exact ⟨this.1.trans hM, this.2⟩

/-- After `k` cycles from a valid index `i` the index is `(i + k) % n`. -/
theorem RunIndexCalls_cycles (k : Nat) :
    ∀ S : ARadiusSpawner, Num S.MeshSets ≤ INT32_MAX → 0 < Num S.MeshSets → IndexValid S →
      (RunIndexCalls S (List.replicate k IndexCall.Cycle)).CurrentMeshSetIndex =
        (S.CurrentMeshSetIndex + (k : Int)) % Num S.MeshSets := by
  induction k with
  | zero =>
    intro S _ hpos hS
    unfold IndexValid at hS
    simp only [List.replicate_zero, RunIndexCalls, List.foldl_nil, Nat.cast_zero, add_zero]
    rw [Int.emod_eq_of_lt hS.1 (by omega)]
  | succ k ih =>
    intro S hlen hpos hS
    have hM := CycleMeshSetIndex_MeshSets S
    have hV := IndexValid_apply S hlen hS IndexCall.Cycle
    have := ih (CycleMeshSetIndex S).1 (by rw [hM]; exact hlen) (by rw [hM]; exact hpos) hV
    simp only [RunIndexCalls, List.replicate_succ, List.foldl_cons, IndexCall.apply] at this ⊢
    rw [this, hM, CycleMeshSetIndex_valid S hlen hS.1 (by unfold IndexValid at hS; omega),
      Int.emod_add_emod]
    congr 1
    push_cast
    ring

/-! ## Mesh set index control -/

/-- C1: `SetMeshSetIndex` leaves `CurrentMeshSetIndex` at 0 for an empty `MeshSets` and
otherwise at `NewIndex` clamped to `[0, n-1]` (0 below, `n-1` above, `NewIndex` itself in
between), which is then a valid index of `MeshSets`; `MeshSets` is unchanged. -/
theorem SetMeshSetIndex_clamps (S : ARadiusSpawner) (NewIndex : Int)
    (hlen : Num S.MeshSets ≤ INT32_MAX) :
    (SetMeshSetIndex S NewIndex).1.CurrentMeshSetIndex =
        (if Num S.MeshSets = 0 then 0
         else if NewIndex < 0 then 0
         else if NewIndex > Num S.MeshSets - 1 then Num S.MeshSets - 1
         else NewIndex) ∧
      (0 < Num S.MeshSets →
        0 ≤ (SetMeshSetIndex S NewIndex).1.CurrentMeshSetIndex ∧
        (SetMeshSetIndex S NewIndex).1.CurrentMeshSetIndex < Num S.MeshSets ∧
        ∃ Set, At S.MeshSets (SetMeshSetIndex S NewIndex).1.CurrentMeshSetIndex = some Set) ∧
      (SetMeshSetIndex S NewIndex).1.MeshSets = S.MeshSets := by
  unfold INT32_MAX at hlen
  have hn := Num_nonneg S.MeshSets
  rw [SetMeshSetIndex_index]
  by_cases h0 : Num S.MeshSets = 0
  · simp only [h0, if_true]
    exact ⟨trivial, fun h => absurd h (lt_irrefl 0), SetMeshSetIndex_MeshSets S NewIndex⟩
  · simp only [h0, if_false]
    rw [wrapInt32_of_range (by omega) (by omega)]
    have hc := Clamp_spec NewIndex (Num S.MeshSets - 1) (by omega)
    refine ⟨hc.1, fun _ => ⟨hc.2.1, by omega, ?_⟩, SetMeshSetIndex_MeshSets S NewIndex⟩
    exact At_of_range _ _ hc.2.1 (by omega)

theorem SetMeshSetIndex_clamps_witness :
    Num TwoSets.MeshSets ≤ INT32_MAX ∧
      (SetMeshSetIndex TwoSets 7).1.CurrentMeshSetIndex = 1 ∧
      (SetMeshSetIndex TwoSets 7).1.MeshSets = TwoSets.MeshSets :=
  ⟨by decide, (SetMeshSetIndex_clamps TwoSets 7 (by decide)).1.trans (by decide),
    (SetMeshSetIndex_clamps TwoSets 7 (by decide)).2.2⟩

/-- C2: from a valid index `i` of a non-empty `MeshSets` of length `n`, `CycleMeshSetIndex`
leaves `CurrentMeshSetIndex` at `i + 1` when `i < n - 1` and at 0 when `i = n - 1`, that is
at `(i + 1) mod n`, again a valid index of `MeshSets`. -/
theorem CycleMeshSetIndex_wraps (S : ARadiusSpawner) (hlen : Num S.MeshSets ≤ INT32_MAX)
    (h0 : 0 ≤ S.CurrentMeshSetIndex) (h1 : S.CurrentMeshSetIndex ≤ Num S.MeshSets - 1) :
    (CycleMeshSetIndex S).1.CurrentMeshSetIndex =
        (if S.CurrentMeshSetIndex < Num S.MeshSets - 1 then S.CurrentMeshSetIndex + 1 else 0) ∧
      (CycleMeshSetIndex S).1.CurrentMeshSetIndex =
        (S.CurrentMeshSetIndex + 1) % Num S.MeshSets ∧
      0 ≤ (CycleMeshSetIndex S).1.CurrentMeshSetIndex ∧
      (CycleMeshSetIndex S).1.CurrentMeshSetIndex < Num S.MeshSets ∧
      (∃ Set, At S.MeshSets (CycleMeshSetIndex S).1.CurrentMeshSetIndex = some Set) := by
  have hv := CycleMeshSetIndex_valid S hlen h0 (by omega)
  have hval : (S.CurrentMeshSetIndex + 1) % Num S.MeshSets =
      (if S.CurrentMeshSetIndex < Num S.MeshSets - 1 then S.CurrentMeshSetIndex + 1 else 0) := by
    split_ifs with hlt
    · exact Int.emod_eq_of_lt (by omega) (by omega)
    · have : S.CurrentMeshSetIndex + 1 = Num S.MeshSets := by omega
      rw [this, Int.emod_self]
  have hnn : 0 ≤ (CycleMeshSetIndex S).1.CurrentMeshSetIndex := by
    rw [hv, hval]; split_ifs <;> omega
  have hlt : (CycleMeshSetIndex S).1.CurrentMeshSetIndex < Num S.MeshSets := by
    rw [hv, hval]; split_ifs <;> omega
  exact ⟨hv.trans hval, hv, hnn, hlt, At_of_range _ _ hnn hlt⟩

theorem CycleMeshSetIndex_wraps_witness :
    Num LastOfTwo.MeshSets ≤ INT32_MAX ∧ 0 ≤ LastOfTwo.CurrentMeshSetIndex ∧
      LastOfTwo.CurrentMeshSetIndex ≤ Num LastOfTwo.MeshSets - 1 ∧
      (CycleMeshSetIndex LastOfTwo).1.CurrentMeshSetIndex = 0 :=
  ⟨by decide, by decide, by decide,
    (CycleMeshSetIndex_wraps LastOfTwo (by decide) (by decide) (by decide)).1.trans
      (by decide)⟩

/-- C3, evaluated on the code: with two mesh sets and the index left at 2 (the last index
before `MeshSets` shrank from three sets to two), `CycleMeshSetIndex` leaves the index at
1, not at 0; from the invalid index -2 it leaves -1, which is no index at all. -/
theorem CycleMeshSetIndex_out_of_bounds_not_reset :
    (CycleMeshSetIndex { TwoSets with CurrentMeshSetIndex := 2 }).1.CurrentMeshSetIndex = 1 ∧
      (CycleMeshSetIndex { TwoSets with CurrentMeshSetIndex := -2 }).1.CurrentMeshSetIndex
        = -1 := by
  constructor <;> rw [CycleMeshSetIndex_index] <;> decide

/-- C10: from a spawner whose index is the initial 0, after every sequence of
`SetMeshSetIndex` and `CycleMeshSetIndex` calls `MeshSets` is the same,
`0 ≤ CurrentMeshSetIndex ≤ max (n-1) 0`, the increment of `CycleMeshSetIndex` does not
leave the `int32` range, the `SafeIndex` clamp of `SpawnMeshesInRadius` is the identity
when `n > 0`, and `n` further `CycleMeshSetIndex` calls bring the index back to its value. -/
theorem index_valid_in_reachable_states (S0 : ARadiusSpawner)
    (hinit : S0.CurrentMeshSetIndex = 0)
    (hlen : Num S0.MeshSets ≤ INT32_MAX) (Calls : List IndexCall) :
    (RunIndexCalls S0 Calls).MeshSets = S0.MeshSets ∧
      0 ≤ (RunIndexCalls S0 Calls).CurrentMeshSetIndex ∧
      (RunIndexCalls S0 Calls).CurrentMeshSetIndex ≤ max (Num S0.MeshSets - 1) 0 ∧
      wrapInt32 ((RunIndexCalls S0 Calls).CurrentMeshSetIndex + 1) =
        (RunIndexCalls S0 Calls).CurrentMeshSetIndex + 1 ∧
      (0 < Num S0.MeshSets →
        SafeIndex (RunIndexCalls S0 Calls) = (RunIndexCalls S0 Calls).CurrentMeshSetIndex) ∧
      (RunIndexCalls (RunIndexCalls S0 Calls)
          (List.replicate S0.MeshSets.length IndexCall.Cycle)).CurrentMeshSetIndex =
        (RunIndexCalls S0 Calls).CurrentMeshSetIndex := by
  have hn := Num_nonneg S0.MeshSets
  have hV0 : IndexValid S0 := by
    unfold IndexValid
    rw [hinit]
    exact ⟨le_refl 0, le_max_right _ _⟩
  obtain ⟨hM, hV⟩ := RunIndexCalls_inv Calls S0 hlen hV0
  have hV2 := hV
  unfold IndexValid at hV2
  rw [hM] at hV2
  have hlen2 := hlen
  unfold INT32_MAX at hlen2
  have hmax : max (Num S0.MeshSets - 1) 0 ≤ 2147483646 := max_le (by omega) (by omega)
  refine ⟨hM, hV2.1, hV2.2, wrapInt32_of_range (by omega) (by omega), ?_, ?_⟩
  · intro hpos
    unfold SafeIndex
    rw [hM, wrapInt32_of_range (by omega) (by omega)]
    have hmax1 : max (Num S0.MeshSets - 1) 0 = Num S0.MeshSets - 1 := max_eq_left (by omega)
    exact Clamp_of_range _ _ hV2.1 (by omega)
  · by_cases hpos : 0 < Num S0.MeshSets
    · have := RunIndexCalls_cycles S0.MeshSets.length (RunIndexCalls S0 Calls)
        (by rw [hM]; exact hlen) (by rw [hM]; exact hpos) hV
      rw [this, hM]
      have hN : ((S0.MeshSets.length : Nat) : Int) = Num S0.MeshSets := rfl
      have hmax1 : max (Num S0.MeshSets - 1) 0 = Num S0.MeshSets - 1 := max_eq_left (by omega)
      rw [hN, Int.add_emod_self]
      exact Int.emod_eq_of_lt hV2.1 (by omega)
    · have hz : S0.MeshSets.length = 0 := by unfold Num at hpos; omega
      rw [hz]
      rfl

theorem index_valid_in_reachable_states_witness :
    TwoSets.CurrentMeshSetIndex = 0 ∧ Num TwoSets.MeshSets ≤ INT32_MAX ∧
      (RunIndexCalls TwoSets
        [IndexCall.Set 5, IndexCall.Cycle, IndexCall.Cycle, IndexCall.Set (-3),
          IndexCall.Cycle]).CurrentMeshSetIndex ≤ max (Num TwoSets.MeshSets - 1) 0 ∧
      (RunIndexCalls
          (RunIndexCalls TwoSets
            [IndexCall.Set 5, IndexCall.Cycle, IndexCall.Cycle, IndexCall.Set (-3),
              IndexCall.Cycle])
          (List.replicate TwoSets.MeshSets.length IndexCall.Cycle)).CurrentMeshSetIndex =
        (RunIndexCalls TwoSets
          [IndexCall.Set 5, IndexCall.Cycle, IndexCall.Cycle, IndexCall.Set (-3),
            IndexCall.Cycle]).CurrentMeshSetIndex :=
  ⟨rfl, by decide,
    (index_valid_in_reachable_states TwoSets rfl (by decide)
      [IndexCall.Set 5, IndexCall.Cycle, IndexCall.Cycle, IndexCall.Set (-3),
        IndexCall.Cycle]).2.2.1,
    (index_valid_in_reachable_states TwoSets rfl (by decide)
      [IndexCall.Set 5, IndexCall.Cycle, IndexCall.Cycle, IndexCall.Set (-3),
        IndexCall.Cycle]).2.2.2.2.2⟩

/-! ## The quaternion library -/

/-- On a pure pitch rotation the member `MirrorPitch` negates every component: the result
denotes the same rotation as its argument. -/
theorem member_MirrorPitch_pure_pitch (y w : ℝ) :
    UMyBlueprintFunctionLibrary.MirrorPitch ⟨0, y, 0, w⟩ = ⟨-0, -y, -0, -w⟩ := by
  simp [UMyBlueprintFunctionLibrary.MirrorPitch]

/-- On a pure pitch rotation the file-static `MirrorPitch` yields `(0, y, 0, -w)`, the
rotation with the opposite pitch. -/
theorem static_MirrorPitch_pure_pitch (y w : ℝ) :
    MirrorPitch ⟨0, y, 0, w⟩ = ⟨0, y, 0, -w⟩ := by
  simp [MirrorPitch]

/-- C4, evaluated on the code: for the pure pitch rotation `(0, 0.6, 0, 0.8)` with
`bInvertPitch` set, the one `SetWorldRotation` call receives `(0, -0.6, 0, -0.8)`, the
negation of the input and so the same rotation; it is neither `(0, -0.6, 0, 0.8)` nor
`(0, 0.6, 0, -0.8)`, the two quaternions of the opposite pitch. -/
theorem SetActorWorldRotationQuat_pitch_not_mirrored :
    (UMyBlueprintFunctionLibrary.SetActorWorldRotationQuat StoreRotation (some RootedActor)
        PitchQuat true false false).2
        = [⟨⟨0, -0.6, 0, -0.8⟩, false, false, ETeleportType.None⟩] ∧
      (⟨0, -0.6, 0, -0.8⟩ : FQuat) ≠ ⟨0, -0.6, 0, 0.8⟩ ∧
      (⟨0, -0.6, 0, -0.8⟩ : FQuat) ≠ ⟨0, 0.6, 0, -0.8⟩ := by
  refine ⟨?_, ?_, ?_⟩
  · simp [UMyBlueprintFunctionLibrary.SetActorWorldRotationQuat, RootedActor, PitchQuat,
      UMyBlueprintFunctionLibrary.MirrorPitch]
  · intro h
    have hW := congrArg FQuat.W h
    norm_num at hW
  · intro h
    have hY := congrArg FQuat.Y h
    norm_num at hY

/-- C9: with a null actor or an actor without root component `SetActorWorldRotationQuat`
makes no `SetWorldRotation` call and leaves the actor as it is, for every quaternion and
every flag, and `GetActorWorldRotationQuat` returns the identity `(0, 0, 0, 1)`; with a
root component `GetActorWorldRotationQuat` returns its quaternion and
`SetActorWorldRotationQuat` makes exactly one `SetWorldRotation` call, with a sweep-result
out-parameter exactly when `bSweep` and `TeleportPhysics` exactly when `bTeleport`. -/
theorem null_guards_default_to_identity
    (SetWorldRotation : USceneComponent → SetWorldRotationCall → USceneComponent)
    (Tags : List String) (Root : USceneComponent) (Quaternion : FQuat)
    (bInvertPitch bSweep bTeleport : Bool) :
    UMyBlueprintFunctionLibrary.SetActorWorldRotationQuat SetWorldRotation none Quaternion
        bInvertPitch bSweep bTeleport = (none, []) ∧
      UMyBlueprintFunctionLibrary.SetActorWorldRotationQuat SetWorldRotation
        (some ⟨Tags, none⟩) Quaternion bInvertPitch bSweep bTeleport
        = (some ⟨Tags, none⟩, []) ∧
      UMyBlueprintFunctionLibrary.GetActorWorldRotationQuat none = ⟨0, 0, 0, 1⟩ ∧
      UMyBlueprintFunctionLibrary.GetActorWorldRotationQuat (some ⟨Tags, none⟩)
        = ⟨0, 0, 0, 1⟩ ∧
      UMyBlueprintFunctionLibrary.GetActorWorldRotationQuat (some ⟨Tags, some Root⟩)
        = Root.ComponentQuat ∧
      ∃ Call : SetWorldRotationCall,
        UMyBlueprintFunctionLibrary.SetActorWorldRotationQuat SetWorldRotation
            (some ⟨Tags, some Root⟩) Quaternion bInvertPitch bSweep bTeleport
          = (some ⟨Tags, some (SetWorldRotation Root Call)⟩, [Call]) ∧
        Call.NewRotation =
          (if bInvertPitch then UMyBlueprintFunctionLibrary.MirrorPitch Quaternion
           else Quaternion) ∧
        Call.bSweep = bSweep ∧
        (Call.OutSweepHitResult = true ↔ bSweep = true) ∧
        (Call.Teleport = ETeleportType.TeleportPhysics ↔ bTeleport = true) := by
  refine ⟨rfl, rfl, rfl, rfl, rfl, ⟨_, rfl, rfl, rfl, ?_, ?_⟩⟩
  · cases bSweep <;> simp
  · cases bTeleport <;> simp

/-! ## The spawn loop -/

/-- One iteration either stops at a null world or appends at most one component, which
that iteration spawned, and makes no `DestroyComponent` call. -/
theorem SpawnIteration_spec (M : FMathLib) (E : SpawnEnv) (S : ARadiusSpawner)
    (A : List (Option UStaticMesh)) (G C : FVector) (I : IterEnv)
    (Sp : List (Option UStaticMeshComponent)) (Tr : List Effect)
    (hA : 0 < Num A) (hlen : Num A ≤ INT32_MAX) (hI : RandRangeContract I) :
    (SpawnIteration M E S A G C I Sp Tr = .error .NullWorld ∧ E.World = none) ∨
      ∃ New T, SpawnIteration M E S A G C I Sp Tr = .ok (Sp ++ New, Tr ++ T) ∧
        New.length ≤ 1 ∧ (∀ x ∈ New, SpawnedBy M S G I x) ∧
        (∀ e ∈ T, e.IsDestroy = false) ∧
        (T.filter Effect.IsNewObject).length = New.length := by
  unfold INT32_MAX at hlen
  have hw : wrapInt32 (Num A - 1) = Num A - 1 := wrapInt32_of_range (by omega) (by omega)
  have hr := hI 0 (Num A - 1) (by omega)
  obtain ⟨m, hm⟩ := At_of_range A (I.RandRangeInt 0 (Num A - 1)) hr.1 (by omega)
  have skip : ∀ T : List Effect, (∀ e ∈ T, e.IsDestroy = false) →
      (T.filter Effect.IsNewObject).length = 0 →
      ∃ New T1, (Except.ok (Sp, Tr ++ T) : Except Fault _) = .ok (Sp ++ New, Tr ++ T1) ∧
        New.length ≤ 1 ∧ (∀ x ∈ New, SpawnedBy M S G I x) ∧
        (∀ e ∈ T1, e.IsDestroy = false) ∧
        (T1.filter Effect.IsNewObject).length = New.length :=
    fun T hT hN => ⟨[], T, by simp, by simp, by simp, hT, by simpa using hN⟩
  have skip0 : ∃ New T1, (Except.ok (Sp, Tr) : Except Fault _) = .ok (Sp ++ New, Tr ++ T1) ∧
        New.length ≤ 1 ∧ (∀ x ∈ New, SpawnedBy M S G I x) ∧
        (∀ e ∈ T1, e.IsDestroy = false) ∧
        (T1.filter Effect.IsNewObject).length = New.length := by
    simpa using skip [] (by simp) (by simp)
  unfold SpawnIteration
  simp only [hw, hm]
  cases m with
  | none =>
    right
    exact skip _ (by simp [Effect.IsDestroy]) (by simp [Effect.IsNewObject])
  | some Mesh =>
    simp only
    cases hW : E.World with
    | none => left; exact ⟨rfl, rfl⟩
    | some W =>
      right
      simp only
      split
      · exact skip0
      · split
        · exact skip0
        · split
          · cases hN : I.NewObject with
            | none =>
              simp only
              exact skip _ (by simp [Effect.IsDestroy]) (by simp [Effect.IsNewObject])
            | some c0 =>
              simp only
              refine ⟨[some _], [.NewObject (some c0)], rfl, by simp, ?_,
                by simp [Effect.IsDestroy], by simp [Effect.IsNewObject]⟩
              intro x hx
              rw [List.mem_singleton] at hx
              exact ⟨c0, Mesh, _, _, _, hN, hx⟩
          · exact skip0

/-- One iteration case by case: it stops at a null world, or it has a ground hit and
appends exactly the component of that hit, or it has none and appends nothing. -/
theorem SpawnIteration_cases (M : FMathLib) (E : SpawnEnv) (S : ARadiusSpawner)
    (A : List (Option UStaticMesh)) (G C : FVector) (I : IterEnv)
    (Sp : List (Option UStaticMeshComponent)) (Tr : List Effect)
    (hA : 0 < Num A) (hlen : Num A ≤ INT32_MAX) (hI : RandRangeContract I) :
    (SpawnIteration M E S A G C I Sp Tr = .error .NullWorld ∧ E.World = none) ∨
      (∃ Mesh Hit c0, GroundHit M S A G I Mesh Hit c0 ∧
        SpawnIteration M E S A G C I Sp Tr =
          .ok (Sp ++ [some (SpawnedComponent M E S G C I Mesh Hit c0)],
            Tr ++ [.NewObject (some c0)])) ∨
      ((¬ ∃ Mesh Hit c0, GroundHit M S A G I Mesh Hit c0) ∧
        ∃ T, SpawnIteration M E S A G C I Sp Tr = .ok (Sp, Tr ++ T)) := by
  unfold INT32_MAX at hlen
  have hw : wrapInt32 (Num A - 1) = Num A - 1 := wrapInt32_of_range (by omega) (by omega)
  have hr := hI 0 (Num A - 1) (by omega)
  obtain ⟨m, hm⟩ := At_of_range A (I.RandRangeInt 0 (Num A - 1)) hr.1 (by omega)
  have hm2 : At A (I.RandRangeInt 0 (wrapInt32 (Num A - 1))) = some m := by rw [hw]; exact hm
  unfold SpawnIteration
  simp only [hw, hm]
  cases m with
  | none =>
    right; right
    refine ⟨?_, _, rfl⟩
    rintro ⟨Mesh, Hit, c0, hG, _⟩
    rw [hm2] at hG
    cases hG
  | some Mesh =>
    simp only
    cases hW : E.World with
    | none => left; exact ⟨rfl, rfl⟩
    | some W =>
      right
      simp only
      split
      · rename_i hT
        right
        refine ⟨?_, [], by simp⟩
        rintro ⟨Mesh1, Hit1, c1, _, hG, _⟩
        exact absurd (hT.symm.trans hG) (by simp)
      · rename_i Hit hT
        split
        · rename_i hAct
          right
          refine ⟨?_, [], by simp⟩
          rintro ⟨Mesh1, Hit1, c1, _, hG, ⟨HitActor, hHA, _⟩, _⟩
          have hEq : Hit = Hit1 := Option.some.inj (hT.symm.trans hG)
          subst hEq
          exact absurd (hAct.symm.trans hHA) (by simp)
        · rename_i HitActor hAct
          split
          · rename_i hTag
            cases hN : I.NewObject with
            | none =>
              right
              simp only
              refine ⟨?_, [.NewObject none], rfl⟩
              rintro ⟨Mesh1, Hit1, c1, _, _, _, hG⟩
              exact absurd (hN.symm.trans hG) (by simp)
            | some c0 =>
              left
              simp only
              exact ⟨Mesh, Hit, c0, ⟨hm2, hT, ⟨HitActor, hAct, hTag⟩, hN⟩, rfl⟩
          · rename_i hTag
            right
            refine ⟨?_, [], by simp⟩
            rintro ⟨Mesh1, Hit1, c1, _, hG, ⟨HitActor1, hHA, hTag1⟩, _⟩
            have hEq : Hit = Hit1 := Option.some.inj (hT.symm.trans hG)
            subst hEq
            have hEq2 : HitActor = HitActor1 := Option.some.inj (hAct.symm.trans hHA)
            subst hEq2
            exact absurd hTag1 hTag

/-- The loop component by component: unless it stops at a null world, every component it
appends is that of a ground hit of one of its iterations, and every iteration with a
ground hit has its component among those appended. -/
theorem SpawnLoop_exact (M : FMathLib) (E : SpawnEnv) (S : ARadiusSpawner)
    (A : List (Option UStaticMesh)) (G C : FVector)
    (hA : 0 < Num A) (hlen : Num A ≤ INT32_MAX) (hI : ∀ j, RandRangeContract (E.Iter j)) :
    ∀ (k i : Nat) (Sp : List (Option UStaticMeshComponent)) (Tr : List Effect),
      (SpawnLoop M E S A G C i k Sp Tr = .error .NullWorld ∧ E.World = none) ∨
        ∃ New T, SpawnLoop M E S A G C i k Sp Tr = .ok (Sp ++ New, Tr ++ T) ∧
          (∀ x ∈ New, ∃ j, i ≤ j ∧ j < i + k ∧ ∃ Mesh Hit c0,
            GroundHit M S A G (E.Iter j) Mesh Hit c0 ∧
            x = some (SpawnedComponent M E S G C (E.Iter j) Mesh Hit c0)) ∧
          (∀ j, i ≤ j → j < i + k → ∀ Mesh Hit c0,
            GroundHit M S A G (E.Iter j) Mesh Hit c0 →
            some (SpawnedComponent M E S G C (E.Iter j) Mesh Hit c0) ∈ New) := by
  intro k
  induction k with
  | zero =>
    intro i Sp Tr
    right
    refine ⟨[], [], by simp [SpawnLoop], by simp, ?_⟩
    intro j h1 h2
    omega
  | succ k ih =>
    intro i Sp Tr
    rcases SpawnIteration_cases M E S A G C (E.Iter i) Sp Tr hA hlen (hI i) with
      ⟨herr, hW⟩ | ⟨Mesh, Hit, c0, hG, hok⟩ | ⟨hno, T1, hok⟩
    · left
      exact ⟨by simp [SpawnLoop, herr], hW⟩
    · rcases ih (i + 1) (Sp ++ [some (SpawnedComponent M E S G C (E.Iter i) Mesh Hit c0)])
          (Tr ++ [.NewObject (some c0)]) with ⟨herr, hW⟩ | ⟨New2, T2, hok2, hby2, hall2⟩
      · left
        exact ⟨by simp [SpawnLoop, hok, herr], hW⟩
      · right
        refine ⟨some (SpawnedComponent M E S G C (E.Iter i) Mesh Hit c0) :: New2,
          .NewObject (some c0) :: T2, ?_, ?_, ?_⟩
        · simp [SpawnLoop, hok, hok2, List.append_assoc]
        · intro x hx
          rcases List.mem_cons.mp hx with h | h
          · exact ⟨i, le_refl i, by omega, Mesh, Hit, c0, hG, h⟩
          · obtain ⟨j, h1, h2, h3⟩ := hby2 x h
            exact ⟨j, by omega, by omega, h3⟩
        · intro j h1 h2 Mesh1 Hit1 c1 hG1
          by_cases hj : j = i
          · subst hj
            have hMesh : Mesh = Mesh1 :=
              Option.some.inj (Option.some.inj (hG.1.symm.trans hG1.1))
            have hHit : Hit = Hit1 := Option.some.inj (hG.2.1.symm.trans hG1.2.1)
            have hc : c0 = c1 := Option.some.inj (hG.2.2.2.symm.trans hG1.2.2.2)
            subst hMesh hHit hc
            exact List.mem_cons_self _ _
          · exact List.mem_cons_of_mem _ (hall2 j (by omega) (by omega) Mesh1 Hit1 c1 hG1)
    · rcases ih (i + 1) Sp (Tr ++ T1) with ⟨herr, hW⟩ | ⟨New2, T2, hok2, hby2, hall2⟩
      · left
        exact ⟨by simp [SpawnLoop, hok, herr], hW⟩
      · right
        refine ⟨New2, T1 ++ T2, ?_, ?_, ?_⟩
        · simp [SpawnLoop, hok, hok2, List.append_assoc]
        · intro x hx
          obtain ⟨j, h1, h2, h3⟩ := hby2 x hx
          exact ⟨j, by omega, by omega, h3⟩
        · intro j h1 h2 Mesh1 Hit1 c1 hG1
          by_cases hj : j = i
          · subst hj
            exact absurd ⟨Mesh1, Hit1, c1, hG1⟩ hno
          · exact hall2 j (by omega) (by omega) Mesh1 Hit1 c1 hG1

/-- The loop either stops at a null world or appends at most one component per iteration,
each spawned by one of its iterations, and makes no `DestroyComponent` call. -/
theorem SpawnLoop_spec (M : FMathLib) (E : SpawnEnv) (S : ARadiusSpawner)
    (A : List (Option UStaticMesh)) (G C : FVector)
    (hA : 0 < Num A) (hlen : Num A ≤ INT32_MAX) (hI : ∀ j, RandRangeContract (E.Iter j)) :
    ∀ (k i : Nat) (Sp : List (Option UStaticMeshComponent)) (Tr : List Effect),
      (SpawnLoop M E S A G C i k Sp Tr = .error .NullWorld ∧ E.World = none) ∨
        ∃ New T, SpawnLoop M E S A G C i k Sp Tr = .ok (Sp ++ New, Tr ++ T) ∧
          New.length ≤ k ∧
          (∀ x ∈ New, ∃ j, i ≤ j ∧ j < i + k ∧ SpawnedBy M S G (E.Iter j) x) ∧
          (∀ e ∈ T, e.IsDestroy = false) ∧
          (T.filter Effect.IsNewObject).length = New.length := by
  intro k
  induction k with
  | zero =>
    intro i Sp Tr
    right
    exact ⟨[], [], by simp [SpawnLoop], by simp, by simp, by simp, by simp⟩
  | succ k ih =>
    intro i Sp Tr
    rcases SpawnIteration_spec M E S A G C (E.Iter i) Sp Tr hA hlen (hI i) with
      ⟨herr, hW⟩ | ⟨New1, T1, hok, hlen1, hby1, hd1, hc1⟩
    · left
      exact ⟨by simp [SpawnLoop, herr], hW⟩
    · rcases ih (i + 1) (Sp ++ New1) (Tr ++ T1) with
        ⟨herr, hW⟩ | ⟨New2, T2, hok2, hlen2, hby2, hd2, hc2⟩
      · left
        exact ⟨by simp [SpawnLoop, hok, herr], hW⟩
      · right
        refine ⟨New1 ++ New2, T1 ++ T2, ?_, ?_, ?_, ?_, ?_⟩
        · simp [SpawnLoop, hok, hok2, List.append_assoc]
        · rw [List.length_append]; omega
        · intro x hx
          rcases List.mem_append.mp hx with h | h
          · exact ⟨i, le_refl i, by omega, hby1 x h⟩
          · obtain ⟨j, h1, h2, h3⟩ := hby2 x h
            exact ⟨j, by omega, by omega, h3⟩
        · intro e he
          rcases List.mem_append.mp he with h | h
          · exact hd1 e h
          · exact hd2 e h
        · rw [List.filter_append, List.length_append, List.length_append, hc1, hc2]

theorem DestroyExisting_mem (L : List (Option UStaticMeshComponent)) (e : Effect) :
    e ∈ DestroyExisting L ↔ ∃ Mesh, some Mesh ∈ L ∧ e = .DestroyComponent Mesh := by
  induction L with
  | nil => simp [DestroyExisting]
  | cons x Rest ih =>
    cases x with
    | none => simp [DestroyExisting, ih]
    | some c =>
      simp only [DestroyExisting, List.mem_cons, ih, Option.some.injEq]
      constructor
      · rintro (h | ⟨m, hm, he⟩)
        · exact ⟨c, Or.inl rfl, h⟩
        · exact ⟨m, Or.inr hm, he⟩
      · rintro ⟨m, hm | hm, he⟩
        · exact Or.inl (hm ▸ he)
        · exact Or.inr ⟨m, hm, he⟩

/-- After step 1 the call either stops at a null world or appends to the stored components
those its loop spawned, at most `SpawnCount` of them and none when it aborts, and makes no
`DestroyComponent` call. -/
theorem SpawnAfterDestroy_spec (M : FMathLib) (E : SpawnEnv) (S : ARadiusSpawner)
    (Tr : List Effect)
    (hlen : Num S.MeshSets ≤ INT32_MAX)
    (hlenA : ∀ Set ∈ S.MeshSets, Num Set.Meshes ≤ INT32_MAX)
    (hI : ∀ j, RandRangeContract (E.Iter j)) :
    (SpawnAfterDestroy M E S Tr = .error .NullWorld ∧ E.World = none) ∨
      ∃ New T,
        SpawnAfterDestroy M E S Tr =
          .ok ({ S with SpawnedMeshes := S.SpawnedMeshes ++ New }, Tr ++ T) ∧
        New.length ≤ S.SpawnCount.toNat ∧
        (∀ x ∈ New, ∃ j, j < S.SpawnCount.toNat ∧
          SpawnedBy M S (CalculateGroundCenterLocation E) (E.Iter j) x) ∧
        (∀ e ∈ T, e.IsDestroy = false) ∧
        (T.filter Effect.IsNewObject).length = New.length ∧
        ((Num S.MeshSets = 0 ∨
            ∃ Set, At S.MeshSets (SafeIndex S) = some Set ∧ Num Set.Meshes = 0) → New = []) := by
  have hn := Num_nonneg S.MeshSets
  have hlen2 := hlen
  unfold INT32_MAX at hlen2
  unfold SpawnAfterDestroy
  by_cases h0 : Num S.MeshSets = 0
  · right
    rw [if_pos h0]
    exact ⟨[], [.Log .SpawnNoMeshSets], by simp, by simp, by simp, by simp [Effect.IsDestroy],
      by simp [Effect.IsNewObject], fun _ => rfl⟩
  · rw [if_neg h0]
    have hsafe : SafeIndex S = Clamp S.CurrentMeshSetIndex 0 (Num S.MeshSets - 1) := by
      unfold SafeIndex
      rw [wrapInt32_of_range (by omega) (by omega)]
    have hc := Clamp_spec S.CurrentMeshSetIndex (Num S.MeshSets - 1) (by omega)
    obtain ⟨Set, hSet⟩ := At_of_range S.MeshSets (SafeIndex S)
      (by rw [hsafe]; exact hc.2.1) (by rw [hsafe]; omega)
    simp only [hSet]
    by_cases hA : Num Set.Meshes = 0
    · right
      rw [if_pos hA]
      exact ⟨[], [.Log (.SpawnActiveSetEmpty (SafeIndex S))], by simp, by simp, by simp,
        by simp [Effect.IsDestroy], by simp [Effect.IsNewObject], fun _ => rfl⟩
    · rw [if_neg hA]
      have hmem : Set ∈ S.MeshSets := by
        unfold At at hSet
        split_ifs at hSet
        exact List.get?_mem hSet
      have hApos : 0 < Num Set.Meshes := by
        have := Num_nonneg Set.Meshes
        omega
      rcases SpawnLoop_spec M E S Set.Meshes (CalculateGroundCenterLocation E)
          (SpawnCameraLocation E) hApos
          (hlenA Set hmem) hI S.SpawnCount.toNat 0 S.SpawnedMeshes Tr with
        ⟨herr, hW⟩ | ⟨New, T, hok, hl, hby, hd, hcnt⟩
      · left
        exact ⟨by simp only [herr], hW⟩
      · right
        refine ⟨New, T ++ [.Log (.SpawnedCount S.SpawnCount)], ?_, hl, ?_, ?_, ?_, ?_⟩
        · simp only [hok, List.append_assoc]
        · intro x hx
          obtain ⟨j, _, h2, h3⟩ := hby x hx
          exact ⟨j, by omega, h3⟩
        · intro e he
          rcases List.mem_append.mp he with h | h
          · exact hd e h
          · rw [List.mem_singleton] at h
            rw [h]; rfl
        · rw [List.filter_append, List.length_append, hcnt]
          simp [Effect.IsNewObject]
        · rintro (h | ⟨Set2, h1, h2⟩)
          · exact absurd h h0
          · cases h1
            exact absurd h2 hA

theorem MissIter_contract : RandRangeContract MissIter :=
  fun _ _ h => ⟨le_refl _, h⟩

theorem HitIter_contract (i : Nat) : RandRangeContract (HitIter i) :=
  fun _ _ h => ⟨le_refl _, h⟩

theorem TwoSets_inner_lengths : ∀ Set ∈ TwoSets.MeshSets, Num Set.Meshes ≤ INT32_MAX := by
  intro Set hSet
  simp only [TwoSets, DefaultSpawner, List.mem_cons, List.mem_singleton, List.not_mem_nil,
    or_false] at hSet
  rcases hSet with h | h <;> rw [h] <;> decide

/-- C6, evaluated on the code: asked for one mesh while the downward trace misses, the call
appends no component and makes no `NewObject` call, yet its final log line reports one
spawned mesh. -/
theorem SpawnMeshesInRadius_log_overcounts (M : FMathLib) :
    SpawnMeshesInRadius M MissEnv OneShot false =
      .ok (OneShot, [.Log (.SpawnedCount 1)]) ∧ OneShot.SpawnedMeshes = [] := by
  constructor
  · simp [SpawnMeshesInRadius, SpawnAfterDestroy, SafeIndex, OneShot, TwoSets, DefaultSpawner,
      Num, Clamp, wrapInt32, At, SpawnLoop, SpawnIteration, MissEnv, MissIter]
  · rfl

/-- The model on a hit: asked for one mesh while the trace hits tagged ground, the call
appends the configured object at the ground center plus the offset `(250, 0)`, 2 above the
hit, and logs one spawned mesh. -/
theorem SpawnMeshesInRadius_hit_example :
    SpawnMeshesInRadius FlatMath HitEnv OneShot false =
      .ok ({ OneShot with SpawnedMeshes :=
              [some { Object := 0
                      Registered := true
                      StaticMesh := some ⟨1⟩
                      WorldLocation := ⟨250, 0, -198⟩
                      WorldRotation := FRotator.ZeroRotator
                      RelativeScale3D := ⟨0.8, 0.8, 0.8⟩
                      SimulatePhysics := false
                      CollisionEnabled := .QueryAndPhysics }] },
        [.NewObject (HitIter 0).NewObject, .Log (.SpawnedCount 1)]) := by
  simp [SpawnMeshesInRadius, SpawnAfterDestroy, SafeIndex, OneShot, TwoSets, DefaultSpawner,
    Num, Clamp, wrapInt32, At, SpawnLoop, SpawnIteration, HitEnv, HitIter, FlatMath,
    CalculateGroundCenterLocation, RandomOffset, ConfigureComponent, AActor.ActorHasTag,
    GroundTag, FVector.sub, FVector.ZeroVector, FRotator.ZeroRotator]
  norm_num

theorem At_of_empty {α : Type} (A : List α) (i : Int) (h : Num A = 0) : At A i = none := by
  have hA : A = [] := List.eq_nil_of_length_eq_zero (by unfold Num at h; omega)
  subst hA
  unfold At
  split_ifs <;> rfl

/-- After step 1, component by component: unless the call stops at a null world, every
component it appends is that of a ground hit of one of its iterations on the active set,
and every iteration with a ground hit has its component among those appended. -/
theorem SpawnAfterDestroy_exact (M : FMathLib) (E : SpawnEnv) (S : ARadiusSpawner)
    (Tr : List Effect)
    (hlen : Num S.MeshSets ≤ INT32_MAX)
    (hlenA : ∀ Set ∈ S.MeshSets, Num Set.Meshes ≤ INT32_MAX)
    (hI : ∀ j, RandRangeContract (E.Iter j)) :
    (SpawnAfterDestroy M E S Tr = .error .NullWorld ∧ E.World = none) ∨
      ∃ New T,
        SpawnAfterDestroy M E S Tr =
          .ok ({ S with SpawnedMeshes := S.SpawnedMeshes ++ New }, Tr ++ T) ∧
        (∀ x ∈ New, ∃ Set j, At S.MeshSets (SafeIndex S) = some Set ∧
          j < S.SpawnCount.toNat ∧ ∃ Mesh Hit c0,
            GroundHit M S Set.Meshes (CalculateGroundCenterLocation E) (E.Iter j) Mesh Hit c0 ∧
            x = some (SpawnedComponent M E S (CalculateGroundCenterLocation E)
              (SpawnCameraLocation E) (E.Iter j) Mesh Hit c0)) ∧
        (∀ Set j, At S.MeshSets (SafeIndex S) = some Set → j < S.SpawnCount.toNat →
          ∀ Mesh Hit c0,
            GroundHit M S Set.Meshes (CalculateGroundCenterLocation E) (E.Iter j) Mesh Hit c0 →
            some (SpawnedComponent M E S (CalculateGroundCenterLocation E)
              (SpawnCameraLocation E) (E.Iter j) Mesh Hit c0) ∈ New) := by
  have hn := Num_nonneg S.MeshSets
  have hlen2 := hlen
  unfold INT32_MAX at hlen2
  unfold SpawnAfterDestroy
  by_cases h0 : Num S.MeshSets = 0
  · right
    rw [if_pos h0]
    refine ⟨[], [.Log .SpawnNoMeshSets], by simp, by simp, ?_⟩
    intro Set j hSet
    rw [At_of_empty _ _ h0] at hSet
    cases hSet
  · rw [if_neg h0]
    have hsafe : SafeIndex S = Clamp S.CurrentMeshSetIndex 0 (Num S.MeshSets - 1) := by
      unfold SafeIndex
      rw [wrapInt32_of_range (by omega) (by omega)]
    have hc := Clamp_spec S.CurrentMeshSetIndex (Num S.MeshSets - 1) (by omega)
    obtain ⟨Set, hSet⟩ := At_of_range S.MeshSets (SafeIndex S)
      (by rw [hsafe]; exact hc.2.1) (by rw [hsafe]; omega)
    simp only [hSet]
    by_cases hA : Num Set.Meshes = 0
    · right
      rw [if_pos hA]
      refine ⟨[], [.Log (.SpawnActiveSetEmpty (SafeIndex S))], by simp, by simp, ?_⟩
      intro Set1 j hSet1 _ Mesh Hit c0 hG
      cases hSet1
      have h1 := hG.1
      rw [At_of_empty _ _ hA] at h1
      cases h1
    · rw [if_neg hA]
      have hmem : Set ∈ S.MeshSets := by
        unfold At at hSet
        split_ifs at hSet
        exact List.get?_mem hSet
      have hApos : 0 < Num Set.Meshes := by
        have := Num_nonneg Set.Meshes
        omega
      rcases SpawnLoop_exact M E S Set.Meshes (CalculateGroundCenterLocation E)
          (SpawnCameraLocation E) hApos (hlenA Set hmem) hI S.SpawnCount.toNat 0
          S.SpawnedMeshes Tr with ⟨herr, hW⟩ | ⟨New, T, hok, hby, hall⟩
      · left
        exact ⟨by simp only [herr], hW⟩
      · right
        refine ⟨New, T ++ [.Log (.SpawnedCount S.SpawnCount)], ?_, ?_, ?_⟩
        · simp only [hok, List.append_assoc]
        · intro x hx
          obtain ⟨j, _, h2, h3⟩ := hby x hx
          exact ⟨Set, j, rfl, by omega, h3⟩
        · intro Set1 j hSet1 hj Mesh Hit c0 hG
          cases hSet1
          exact hall j (Nat.zero_le j) (by omega) Mesh Hit c0 hG

/-- The whole call, component by component, for either value of `bDestroyExisting`. -/
theorem SpawnMeshesInRadius_exact (M : FMathLib) (E : SpawnEnv) (S : ARadiusSpawner)
    (bDestroyExisting : Bool)
    (hlen : Num S.MeshSets ≤ INT32_MAX)
    (hlenA : ∀ Set ∈ S.MeshSets, Num Set.Meshes ≤ INT32_MAX)
    (hI : ∀ j, RandRangeContract (E.Iter j))
    (hW : E.World ≠ none) :
    ∃ New T,
      SpawnMeshesInRadius M E S bDestroyExisting =
        .ok ({ S with SpawnedMeshes :=
                (if bDestroyExisting then [] else S.SpawnedMeshes) ++ New }, T) ∧
      (∀ x ∈ New, ∃ Set j, At S.MeshSets (SafeIndex S) = some Set ∧
        j < S.SpawnCount.toNat ∧ ∃ Mesh Hit c0,
          GroundHit M S Set.Meshes (CalculateGroundCenterLocation E) (E.Iter j) Mesh Hit c0 ∧
          x = some (SpawnedComponent M E S (CalculateGroundCenterLocation E)
            (SpawnCameraLocation E) (E.Iter j) Mesh Hit c0)) ∧
      (∀ Set j, At S.MeshSets (SafeIndex S) = some Set → j < S.SpawnCount.toNat →
        ∀ Mesh Hit c0,
          GroundHit M S Set.Meshes (CalculateGroundCenterLocation E) (E.Iter j) Mesh Hit c0 →
          some (SpawnedComponent M E S (CalculateGroundCenterLocation E)
            (SpawnCameraLocation E) (E.Iter j) Mesh Hit c0) ∈ New) := by
  unfold SpawnMeshesInRadius
  cases bDestroyExisting with
  | false =>
    simp only [Bool.false_eq_true, if_false]
    rcases SpawnAfterDestroy_exact M E S [] hlen hlenA hI with
      ⟨_, hnone⟩ | ⟨New, T, hok, hby, hall⟩
    · exact absurd hnone hW
    · exact ⟨New, [] ++ T, hok, hby, hall⟩
  | true =>
    simp only [if_true]
    rcases SpawnAfterDestroy_exact M E { S with SpawnedMeshes := [] }
        (DestroyExisting S.SpawnedMeshes) hlen hlenA hI with
      ⟨_, hnone⟩ | ⟨New, T, hok, hby, hall⟩
    · exact absurd hnone hW
    · exact ⟨New, DestroyExisting S.SpawnedMeshes ++ T, hok, hby, hall⟩

/-- With the real cosine and sine the random offset lies in the disc of radius
`SpawningRadius`. -/
theorem RandomOffset_in_disc (M : FMathLib) (hCos : M.Cos = Real.cos)
    (hSin : M.Sin = Real.sin) (R : ℝ) (I : IterEnv)
    (hR : 0 ≤ R) (h0 : 0 ≤ I.FRand) (h1 : I.FRand ≤ 1) :
    (RandomOffset M R I).1 ^ 2 + (RandomOffset M R I).2 ^ 2 ≤ R ^ 2 := by
  simp only [RandomOffset, hCos, hSin]
  have hcs := Real.cos_sq_add_sin_sq (M.DegreesToRadians (I.RandRangeFloat 0 360))
  have hu : (I.FRand * R) ^ 2 ≤ R ^ 2 := by
    have : I.FRand * R ≤ R := by nlinarith
    have hnn : 0 ≤ I.FRand * R := mul_nonneg h0 hR
    nlinarith
  calc (Real.cos (M.DegreesToRadians (I.RandRangeFloat 0 360)) * (I.FRand * R)) ^ 2 +
        (Real.sin (M.DegreesToRadians (I.RandRangeFloat 0 360)) * (I.FRand * R)) ^ 2
      = (Real.cos (M.DegreesToRadians (I.RandRangeFloat 0 360)) ^ 2 +
          Real.sin (M.DegreesToRadians (I.RandRangeFloat 0 360)) ^ 2) * (I.FRand * R) ^ 2 := by
        ring
    _ = (I.FRand * R) ^ 2 := by rw [hcs, one_mul]
    _ ≤ R ^ 2 := hu

/-- C5: with the real cosine and sine, `SpawningRadius ≥ 0` and every `FRand` value in
`[0, 1]`, the offset `(RandX, RandY) = (cos a * (u * R), sin a * (u * R))` of every
iteration satisfies `RandX² + RandY² ≤ SpawningRadius²`, and the call returns with these
components appended: every appended component comes from an iteration whose downward trace
hit an actor tagged `Ground`, and every iteration that selects a non-null mesh, whose trace
hits an actor tagged `Ground` and whose `NewObject` returns an object has that object
appended with the selected mesh; each such component sits at
`GroundCenterLocation.X + RandX`, `GroundCenterLocation.Y + RandY` of its iteration, 2 above
the hit, at horizontal distance at most `SpawningRadius` from the computed ground center. -/
theorem spawned_within_radius (M : FMathLib) (hCos : M.Cos = Real.cos)
    (hSin : M.Sin = Real.sin)
    (E : SpawnEnv) (S : ARadiusSpawner) (bDestroyExisting : Bool)
    (hR : 0 ≤ S.SpawningRadius)
    (hF : ∀ j, 0 ≤ (E.Iter j).FRand ∧ (E.Iter j).FRand ≤ 1)
    (hlen : Num S.MeshSets ≤ INT32_MAX)
    (hlenA : ∀ Set ∈ S.MeshSets, Num Set.Meshes ≤ INT32_MAX)
    (hI : ∀ j, RandRangeContract (E.Iter j))
    (hW : E.World ≠ none) :
    (∀ j,
      RandomOffset M S.SpawningRadius (E.Iter j) =
          (Real.cos (M.DegreesToRadians ((E.Iter j).RandRangeFloat 0 360)) *
              ((E.Iter j).FRand * S.SpawningRadius),
            Real.sin (M.DegreesToRadians ((E.Iter j).RandRangeFloat 0 360)) *
              ((E.Iter j).FRand * S.SpawningRadius)) ∧
        (RandomOffset M S.SpawningRadius (E.Iter j)).1 ^ 2 +
          (RandomOffset M S.SpawningRadius (E.Iter j)).2 ^ 2 ≤ S.SpawningRadius ^ 2) ∧
      ∃ New T,
        SpawnMeshesInRadius M E S bDestroyExisting =
          .ok ({ S with SpawnedMeshes :=
                  (if bDestroyExisting then [] else S.SpawnedMeshes) ++ New }, T) ∧
        (∀ x ∈ New, ∃ (Comp : UStaticMeshComponent) (j : Nat) (Hit : FHitResult)
            (HitActor : AActor),
          x = some Comp ∧ j < S.SpawnCount.toNat ∧
          (E.Iter j).LineTraceSingleByChannel
              (IterTraceStart (CalculateGroundCenterLocation E)
                (RandomOffset M S.SpawningRadius (E.Iter j)))
              (IterTraceEnd (CalculateGroundCenterLocation E)
                (RandomOffset M S.SpawningRadius (E.Iter j))) = some Hit ∧
          Hit.Actor = some HitActor ∧ HitActor.ActorHasTag GroundTag = true ∧
          Comp.WorldLocation.X = (CalculateGroundCenterLocation E).X +
            (RandomOffset M S.SpawningRadius (E.Iter j)).1 ∧
          Comp.WorldLocation.Y = (CalculateGroundCenterLocation E).Y +
            (RandomOffset M S.SpawningRadius (E.Iter j)).2 ∧
          Comp.WorldLocation.Z = Hit.Location.Z + 2 ∧
          (Comp.WorldLocation.X - (CalculateGroundCenterLocation E).X) ^ 2 +
            (Comp.WorldLocation.Y - (CalculateGroundCenterLocation E).Y) ^ 2
            ≤ S.SpawningRadius ^ 2) ∧
        (∀ (Set : FMeshSet) (j : Nat) (Mesh : UStaticMesh) (Hit : FHitResult)
            (HitActor : AActor) (NewMeshComp : UStaticMeshComponent),
          At S.MeshSets (SafeIndex S) = some Set → j < S.SpawnCount.toNat →
          At Set.Meshes ((E.Iter j).RandRangeInt 0 (wrapInt32 (Num Set.Meshes - 1)))
            = some (some Mesh) →
          (E.Iter j).LineTraceSingleByChannel
              (IterTraceStart (CalculateGroundCenterLocation E)
                (RandomOffset M S.SpawningRadius (E.Iter j)))
              (IterTraceEnd (CalculateGroundCenterLocation E)
                (RandomOffset M S.SpawningRadius (E.Iter j))) = some Hit →
          Hit.Actor = some HitActor → HitActor.ActorHasTag GroundTag = true →
          (E.Iter j).NewObject = some NewMeshComp →
          ∃ Comp : UStaticMeshComponent,
            some Comp ∈ New ∧ Comp.Object = NewMeshComp.Object ∧
            Comp.StaticMesh = some Mesh ∧
            Comp.WorldLocation.X = (CalculateGroundCenterLocation E).X +
              (RandomOffset M S.SpawningRadius (E.Iter j)).1 ∧
            Comp.WorldLocation.Y = (CalculateGroundCenterLocation E).Y +
              (RandomOffset M S.SpawningRadius (E.Iter j)).2 ∧
            Comp.WorldLocation.Z = Hit.Location.Z + 2 ∧
            (Comp.WorldLocation.X - (CalculateGroundCenterLocation E).X) ^ 2 +
              (Comp.WorldLocation.Y - (CalculateGroundCenterLocation E).Y) ^ 2
              ≤ S.SpawningRadius ^ 2) := by
  have disc : ∀ j, (RandomOffset M S.SpawningRadius (E.Iter j)).1 ^ 2 +
      (RandomOffset M S.SpawningRadius (E.Iter j)).2 ^ 2 ≤ S.SpawningRadius ^ 2 :=
    fun j => RandomOffset_in_disc M hCos hSin _ _ hR (hF j).1 (hF j).2
  refine ⟨fun j => ⟨by simp only [RandomOffset, hCos, hSin], disc j⟩, ?_⟩
  obtain ⟨New, T, hok, hby, hall⟩ :=
    SpawnMeshesInRadius_exact M E S bDestroyExisting hlen hlenA hI hW
  refine ⟨New, T, hok, ?_, ?_⟩
  · intro x hx
    obtain ⟨Set, j, _, hj, Mesh, Hit, c0, hG, hxeq⟩ := hby x hx
    obtain ⟨_, hTrace, ⟨HitActor, hAct, hTag⟩, _⟩ := hG
    refine ⟨_, j, Hit, HitActor, hxeq, hj, hTrace, hAct, hTag, rfl, rfl, rfl, ?_⟩
    simp only [SpawnedComponent, ConfigureComponent, add_sub_cancel_left]
    exact disc j
  · intro Set j Mesh Hit HitActor c0 hSet hj hMesh hTrace hAct hTag hNew
    refine ⟨_, hall Set j hSet hj Mesh Hit c0 ⟨hMesh, hTrace, ⟨HitActor, hAct, hTag⟩, hNew⟩,
      rfl, rfl, rfl, rfl, rfl, ?_⟩
    simp only [SpawnedComponent, ConfigureComponent, add_sub_cancel_left]
    exact disc j

theorem spawned_within_radius_witness :
    (0 : ℝ) ≤ OneShot.SpawningRadius ∧ HitEnv.World ≠ none ∧
      (HitEnv.Iter 0).LineTraceSingleByChannel
          (IterTraceStart (CalculateGroundCenterLocation HitEnv)
            (RandomOffset ⟨Real.cos, Real.sin, fun d => d * (Real.pi / 180),
              fun _ => FRotator.ZeroRotator⟩ OneShot.SpawningRadius (HitEnv.Iter 0)))
          (IterTraceEnd (CalculateGroundCenterLocation HitEnv)
            (RandomOffset ⟨Real.cos, Real.sin, fun d => d * (Real.pi / 180),
              fun _ => FRotator.ZeroRotator⟩ OneShot.SpawningRadius (HitEnv.Iter 0)))
        = some ⟨some ⟨["Ground"], none⟩,
            IterTraceEnd (CalculateGroundCenterLocation HitEnv)
              (RandomOffset ⟨Real.cos, Real.sin, fun d => d * (Real.pi / 180),
                fun _ => FRotator.ZeroRotator⟩ OneShot.SpawningRadius (HitEnv.Iter 0))⟩ ∧
      ∃ New T,
        SpawnMeshesInRadius ⟨Real.cos, Real.sin, fun d => d * (Real.pi / 180),
            fun _ => FRotator.ZeroRotator⟩ HitEnv OneShot false =
          .ok ({ OneShot with SpawnedMeshes :=
                  (if false = true then [] else OneShot.SpawnedMeshes) ++ New }, T) ∧
        ∃ Comp : UStaticMeshComponent,
          some Comp ∈ New ∧ Comp.Object = 0 ∧ Comp.StaticMesh = some ⟨1⟩ ∧
          Comp.WorldLocation.X = (CalculateGroundCenterLocation HitEnv).X +
            (RandomOffset ⟨Real.cos, Real.sin, fun d => d * (Real.pi / 180),
              fun _ => FRotator.ZeroRotator⟩ OneShot.SpawningRadius (HitEnv.Iter 0)).1 ∧
          Comp.WorldLocation.Y = (CalculateGroundCenterLocation HitEnv).Y +
            (RandomOffset ⟨Real.cos, Real.sin, fun d => d * (Real.pi / 180),
              fun _ => FRotator.ZeroRotator⟩ OneShot.SpawningRadius (HitEnv.Iter 0)).2 ∧
          (Comp.WorldLocation.X - (CalculateGroundCenterLocation HitEnv).X) ^ 2 +
            (Comp.WorldLocation.Y - (CalculateGroundCenterLocation HitEnv).Y) ^ 2
            ≤ OneShot.SpawningRadius ^ 2 := by
  refine ⟨by norm_num [OneShot, TwoSets, DefaultSpawner], by simp [HitEnv], rfl, ?_⟩
  obtain ⟨New, T, hok, _, hall⟩ :=
    (spawned_within_radius ⟨Real.cos, Real.sin, fun d => d * (Real.pi / 180),
        fun _ => FRotator.ZeroRotator⟩ rfl rfl HitEnv OneShot false
      (by norm_num [OneShot, TwoSets, DefaultSpawner])
      (fun j => by norm_num [HitEnv, HitIter]) (by decide) TwoSets_inner_lengths
      HitIter_contract (by simp [HitEnv])).2
  obtain ⟨Comp, hmem, hObj, hMesh, hX, hY, _, hD⟩ :=
    hall ⟨[some ⟨1⟩]⟩ 0 ⟨1⟩ _ ⟨["Ground"], none⟩ _ (by decide) (by decide) (by decide)
      rfl rfl (by decide) rfl
  exact ⟨New, T, hok, Comp, hmem, hObj, hMesh, hX, hY, hD⟩

/-- C7: with `bDestroyExisting` the call first makes one `DestroyComponent` call for each
non-null stored component and forgets them all, makes no further `DestroyComponent` call,
and ends with `SpawnedMeshes` holding only components its own iterations spawned (none
when it aborts on empty mesh arrays); without `bDestroyExisting` it makes no
`DestroyComponent` call and the previous `SpawnedMeshes` is a prefix of the new one. -/
theorem destroy_existing_is_optional (M : FMathLib) (E : SpawnEnv) (S : ARadiusSpawner)
    (hlen : Num S.MeshSets ≤ INT32_MAX)
    (hlenA : ∀ Set ∈ S.MeshSets, Num Set.Meshes ≤ INT32_MAX)
    (hI : ∀ j, RandRangeContract (E.Iter j))
    (hW : E.World ≠ none) :
    (∃ New T,
        SpawnMeshesInRadius M E S true =
          .ok ({ S with SpawnedMeshes := New }, DestroyExisting S.SpawnedMeshes ++ T) ∧
        (∀ e, e ∈ DestroyExisting S.SpawnedMeshes ↔
          ∃ Mesh, some Mesh ∈ S.SpawnedMeshes ∧ e = .DestroyComponent Mesh) ∧
        (∀ e ∈ T, e.IsDestroy = false) ∧
        (∀ x ∈ New, ∃ j, j < S.SpawnCount.toNat ∧
          SpawnedBy M S (CalculateGroundCenterLocation E) (E.Iter j) x) ∧
        (T.filter Effect.IsNewObject).length = New.length ∧
        ((Num S.MeshSets = 0 ∨
            ∃ Set, At S.MeshSets (SafeIndex S) = some Set ∧ Num Set.Meshes = 0) → New = [])) ∧
      (∃ New T,
        SpawnMeshesInRadius M E S false =
          .ok ({ S with SpawnedMeshes := S.SpawnedMeshes ++ New }, T) ∧
        (∀ e ∈ T, e.IsDestroy = false) ∧
        S.SpawnedMeshes <+: S.SpawnedMeshes ++ New) := by
  constructor
  · rcases SpawnAfterDestroy_spec M E { S with SpawnedMeshes := [] }
        (DestroyExisting S.SpawnedMeshes) hlen hlenA hI with
      ⟨_, hnone⟩ | ⟨New, T, hok, _, hby, hd, hcnt, hab⟩
    · exact absurd hnone hW
    · refine ⟨New, T, ?_, DestroyExisting_mem S.SpawnedMeshes, hd, hby, hcnt, hab⟩
      simp only [SpawnMeshesInRadius, if_true]
      rw [hok]
      simp
  · rcases SpawnAfterDestroy_spec M E S [] hlen hlenA hI with
      ⟨_, hnone⟩ | ⟨New, T, hok, _, _, hd, _, _⟩
    · exact absurd hnone hW
    · refine ⟨New, T, ?_, hd, List.prefix_append _ _⟩
      simp only [SpawnMeshesInRadius, Bool.false_eq_true, if_false]
      rw [hok]
      simp

theorem destroy_existing_is_optional_witness :
    Num Stocked.MeshSets ≤ INT32_MAX ∧ HitEnv.World ≠ none ∧
      (∃ New T,
        SpawnMeshesInRadius FlatMath HitEnv Stocked true =
          .ok ({ Stocked with SpawnedMeshes := New },
            [.DestroyComponent (StoredComponent 7), .DestroyComponent (StoredComponent 9)]
              ++ T) ∧
        (∀ e ∈ T, e.IsDestroy = false) ∧
        (∀ x ∈ New, ∃ j, j < Stocked.SpawnCount.toNat ∧
          SpawnedBy FlatMath Stocked (CalculateGroundCenterLocation HitEnv)
            (HitEnv.Iter j) x) ∧
        (T.filter Effect.IsNewObject).length = New.length) ∧
      (∃ New T,
        SpawnMeshesInRadius FlatMath HitEnv Stocked false =
          .ok ({ Stocked with SpawnedMeshes :=
                  [some (StoredComponent 7), none, some (StoredComponent 9)] ++ New }, T) ∧
        (∀ e ∈ T, e.IsDestroy = false) ∧
        [some (StoredComponent 7), none, some (StoredComponent 9)]
          <+: [some (StoredComponent 7), none, some (StoredComponent 9)] ++ New) := by
  have h := destroy_existing_is_optional FlatMath HitEnv Stocked (by decide)
    TwoSets_inner_lengths HitIter_contract (by simp [HitEnv])
  refine ⟨by decide, by simp [HitEnv], ?_, h.2⟩
  obtain ⟨New, T, hok, _, hd, hby, hcnt, _⟩ := h.1
  exact ⟨New, T, hok, hd, hby, hcnt⟩

/-- C8: when `MeshSets` is empty or the active set `MeshSets[SafeIndex]` is empty the call
returns without a `NewObject` call and appends nothing, leaving the spawner unchanged
apart from the stored components step 1 forgot (entirely unchanged without
`bDestroyExisting`); when both are non-empty the call runs the spawn loop on the active set
whatever `CurrentMeshSetIndex` is, `SafeIndex` is a valid index of `MeshSets`, and no range
check fails. -/
theorem empty_mesh_arrays_abort (M : FMathLib) (E : SpawnEnv) (S : ARadiusSpawner)
    (bDestroyExisting : Bool)
    (hlen : Num S.MeshSets ≤ INT32_MAX)
    (hlenA : ∀ Set ∈ S.MeshSets, Num Set.Meshes ≤ INT32_MAX)
    (hI : ∀ j, RandRangeContract (E.Iter j)) :
    ((Num S.MeshSets = 0 ∨
        ∃ Set, At S.MeshSets (SafeIndex S) = some Set ∧ Num Set.Meshes = 0) →
      ∃ T,
        SpawnMeshesInRadius M E S bDestroyExisting =
          .ok ({ S with SpawnedMeshes := if bDestroyExisting then [] else S.SpawnedMeshes },
            T) ∧
        (∀ e ∈ T, e.IsNewObject = false) ∧
        (bDestroyExisting = false →
          ∃ T0, SpawnMeshesInRadius M E S bDestroyExisting = .ok (S, T0))) ∧
      (0 < Num S.MeshSets →
        ∃ Set, At S.MeshSets (SafeIndex S) = some Set ∧
          (0 < Num Set.Meshes →
            SpawnMeshesInRadius M E S bDestroyExisting =
              (match SpawnLoop M E
                  (if bDestroyExisting then { S with SpawnedMeshes := [] } else S)
                  Set.Meshes (CalculateGroundCenterLocation E) (SpawnCameraLocation E) 0
                  S.SpawnCount.toNat
                  (if bDestroyExisting then [] else S.SpawnedMeshes)
                  (if bDestroyExisting then DestroyExisting S.SpawnedMeshes else []) with
                | .error F => .error F
                | .ok (SpawnedMeshes2, Trace2) =>
                  .ok ({ S with SpawnedMeshes := SpawnedMeshes2 },
                    Trace2 ++ [.Log (.SpawnedCount S.SpawnCount)])))) ∧
      SpawnMeshesInRadius M E S bDestroyExisting ≠ .error .IndexOutOfBounds := by
  have hn := Num_nonneg S.MeshSets
  have hlen2 := hlen
  unfold INT32_MAX at hlen2
  refine ⟨?_, ?_, ?_⟩
  · intro hab
    have key : ∀ (S0 : ARadiusSpawner) (Tr : List Effect), S0.MeshSets = S.MeshSets →
        S0.CurrentMeshSetIndex = S.CurrentMeshSetIndex → (∀ e ∈ Tr, e.IsNewObject = false) →
        ∃ T, SpawnAfterDestroy M E S0 Tr = .ok (S0, T) ∧ (∀ e ∈ T, e.IsNewObject = false) := by
      intro S0 Tr hM hC hTr
      have hSafe : SafeIndex S0 = SafeIndex S := by unfold SafeIndex; rw [hM, hC]
      unfold SpawnAfterDestroy
      rw [hM, hSafe]
      have hmemT : ∀ (l : LogLine), ∀ e ∈ Tr ++ [Effect.Log l], e.IsNewObject = false := by
        intro l e he
        rcases List.mem_append.mp he with h | h
        · exact hTr e h
        · rw [List.mem_singleton] at h
          rw [h]; rfl
      rcases hab with h0 | ⟨Set, hSet, hA⟩
      · rw [if_pos h0]
        exact ⟨_, rfl, hmemT _⟩
      · by_cases h0 : Num S.MeshSets = 0
        · rw [if_pos h0]
          exact ⟨_, rfl, hmemT _⟩
        · rw [if_neg h0]
          simp only [hSet, hA, if_true]
          exact ⟨_, rfl, hmemT _⟩
    unfold SpawnMeshesInRadius
    cases bDestroyExisting with
    | false =>
      simp only [Bool.false_eq_true, if_false]
      obtain ⟨T, hT, hNew⟩ := key S [] rfl rfl (by simp)
      exact ⟨T, hT, hNew, fun _ => ⟨T, hT⟩⟩
    | true =>
      simp only [if_true]
      obtain ⟨T, hT, hNew⟩ := key { S with SpawnedMeshes := [] }
        (DestroyExisting S.SpawnedMeshes) rfl rfl (by
          intro e he
          obtain ⟨m, _, hm⟩ := (DestroyExisting_mem _ _).mp he
          rw [hm]; rfl)
      exact ⟨T, hT, hNew, fun h => absurd h (by simp)⟩
  · intro hpos
    have hsafe : SafeIndex S = Clamp S.CurrentMeshSetIndex 0 (Num S.MeshSets - 1) := by
      unfold SafeIndex
      rw [wrapInt32_of_range (by omega) (by omega)]
    have hc := Clamp_spec S.CurrentMeshSetIndex (Num S.MeshSets - 1) (by omega)
    obtain ⟨Set, hSet⟩ := At_of_range S.MeshSets (SafeIndex S)
      (by rw [hsafe]; exact hc.2.1) (by rw [hsafe]; omega)
    refine ⟨Set, hSet, fun hA => ?_⟩
    have h0 : ¬ Num S.MeshSets = 0 := by omega
    have hA0 : ¬ Num Set.Meshes = 0 := by omega
    have hSet1 : At S.MeshSets (SafeIndex { S with SpawnedMeshes := [] }) = some Set := hSet
    unfold SpawnMeshesInRadius SpawnAfterDestroy
    cases bDestroyExisting with
    | false => simp only [Bool.false_eq_true, if_false, h0, hSet, hA0]
    | true => simp only [if_true, h0, hSet1, hA0, if_false]
  · unfold SpawnMeshesInRadius
    cases bDestroyExisting with
    | false =>
      simp only [Bool.false_eq_true, if_false]
      rcases SpawnAfterDestroy_spec M E S [] hlen hlenA hI with
        ⟨herr, _⟩ | ⟨New, T, hok, _⟩
      · rw [herr]; simp
      · rw [hok]; simp
    | true =>
      simp only [if_true]
      rcases SpawnAfterDestroy_spec M E { S with SpawnedMeshes := [] }
          (DestroyExisting S.SpawnedMeshes) hlen hlenA hI with
        ⟨herr, _⟩ | ⟨New, T, hok, _⟩
      · rw [herr]; simp
      · rw [hok]; simp

theorem empty_mesh_arrays_abort_witness :
    Num (DefaultSpawner []).MeshSets ≤ INT32_MAX ∧
      Num (DefaultSpawner []).MeshSets = 0 ∧
      ∃ T,
        SpawnMeshesInRadius FlatMath HitEnv (DefaultSpawner []) false =
          .ok ({ DefaultSpawner [] with SpawnedMeshes :=
                  if false = true then [] else (DefaultSpawner []).SpawnedMeshes }, T) ∧
        (∀ e ∈ T, e.IsNewObject = false) ∧
        (false = false →
          ∃ T0, SpawnMeshesInRadius FlatMath HitEnv (DefaultSpawner []) false =
            .ok (DefaultSpawner [], T0)) :=
  ⟨by decide, by decide,
    (empty_mesh_arrays_abort FlatMath HitEnv (DefaultSpawner []) false (by decide)
      (by intro Set hSet; simp [DefaultSpawner] at hSet) HitIter_contract).1
      (Or.inl (by decide))⟩

end Garden
